import Mathlib

/-
Shallow embedding of the VaporSur steam-plant control loop (src/src/code-v2.py).

The program is a single CircuitPython polling loop over module-level mutable
variables.  We model one loop iteration as a pure function `tick` on a state
record `Estado`, with the per-tick external samples (wall clock, the two
active-low buttons, the absolute encoder position) gathered in `Entrada`.
Python floats are modelled as exact rationals; `0.1` and `0.2` become `1/10`
and `1/5`.  Hardware sinks (digital outputs, PWM duty cycles) are modelled by
the boolean/percentage values the code writes to them; the RGB status colour,
the printed status text and the in-tick `time.sleep` calls carry no control
state and are not modelled.
-/

namespace VaporSur

/-- Flow regime reported in the telemetry field `F` ("A", "B" or "None"). -/
inductive Flujo : Type
  | A : Flujo
  | B : Flujo
  | none : Flujo
deriving DecidableEq

/-- Constant `PRESION_INICIAL = 300.0` (nominal pressure, kPa). -/
def PRESION_INICIAL : ℚ := 300

/-- Constant `TEMPERATURA_INICIAL = 150.0` (nominal temperature, °C). -/
def TEMPERATURA_INICIAL : ℚ := 150

/-- Constant `PRESION_EMERGENCIA_ALTA = 460.0` (automatic ESD trip). -/
def PRESION_EMERGENCIA_ALTA : ℚ := 460

/-- Constant `TEMPERATURA_EMERGENCIA_ALTA = 190.0` (automatic ESD trip). -/
def TEMPERATURA_EMERGENCIA_ALTA : ℚ := 190

/-- Constant `PRESION_RECUPERACION = 220.0` (recovery-mode entry threshold). -/
def PRESION_RECUPERACION : ℚ := 220

/-- Constant `TEMPERATURA_PRECALENTAMIENTO = 110.0` (preheat entry threshold). -/
def TEMPERATURA_PRECALENTAMIENTO : ℚ := 110

/-- Constant `TOLERANCIA_PRESION_ESD = 5.0`. -/
def TOLERANCIA_PRESION_ESD : ℚ := 5

/-- Constant `TOLERANCIA_TEMPERATURA_ESD = 3.0`. -/
def TOLERANCIA_TEMPERATURA_ESD : ℚ := 3

/-- Constant `VALVULA_MODULANTE_MIN = 0.0`. -/
def VALVULA_MODULANTE_MIN : ℚ := 0

/-- Constant `VALVULA_MODULANTE_MAX = 100.0`. -/
def VALVULA_MODULANTE_MAX : ℚ := 100

/-- Constant `SUPERCALENTADOR_MIN = 0.0`. -/
def SUPERCALENTADOR_MIN : ℚ := 0

/-- Constant `SUPERCALENTADOR_MAX = 100.0`. -/
def SUPERCALENTADOR_MAX : ℚ := 100

/-- Constant `SENSIBILIDAD_ENCODER_PRESION = 2.0`. -/
def SENSIBILIDAD_ENCODER_PRESION : ℚ := 2

/-- Constant `SENSIBILIDAD_ENCODER_TEMPERATURA = 1.0`. -/
def SENSIBILIDAD_ENCODER_TEMPERATURA : ℚ := 1

/-- Constant `TIEMPO_DEBOUNCE_MS = 120`. -/
def TIEMPO_DEBOUNCE_MS : ℚ := 120

/-- Constant `duracion_standby = 3.0`; with `tiempo_inicio_standby = 0` the
loop body is skipped while `tiempo_actual < 3`. -/
def duracion_standby : ℚ := 3

/-- The module-level mutable variables of the loop, one record field per
Python global. `modo_actual` is 0 (pressure) or 1 (temperature); the booleans
mirror the Python flags and the modelled digital outputs; `estado_alivio` and
`estado_purga` hold the `"Si"`/`"No"` telemetry strings as booleans. -/
structure Estado : Type where
  presion_simulada : ℚ
  temperatura_simulada : ℚ
  porcentaje_valvula_modulante : ℚ
  comando_supercalentador : ℚ
  modo_actual : ℕ
  recuperacion_presion_activa : Bool
  precalentamiento_activo : Bool
  esd_activo : Bool
  esd_listo_para_reinicio : Bool
  ultimo_estado_boton_esd : Bool
  ultimo_estado_boton_encoder : Bool
  ultimo_tiempo_boton_encoder : ℚ
  ultima_posicion_encoder : ℤ
  ultimo_tiempo_actualizacion : ℚ
  ultimo_log : ℚ
  valvula_alivio : Bool
  sistema_purga_a : Bool
  estado_alivio : Bool
  estado_purga : Bool
  estado_flujo : Flujo
  led_flujo : Bool
  laser_indicador : Bool
deriving DecidableEq

/-- External samples consumed by one loop iteration: `time.monotonic()`,
the two active-low button levels and the absolute encoder position. -/
structure Entrada : Type where
  tiempo : ℚ
  boton_esd : Bool
  boton_encoder : Bool
  posicion_encoder : ℤ
deriving DecidableEq

/-- Startup state of the module variables (the buttons idle high through the
pull-ups, `estado_flujo` defaults to the `"None"` the logger substitutes
before the first normal tick). -/
def estadoInicial : Estado where
  presion_simulada := PRESION_INICIAL
  temperatura_simulada := TEMPERATURA_INICIAL
  porcentaje_valvula_modulante := 50
  comando_supercalentador := 50
  modo_actual := 0
  recuperacion_presion_activa := false
  precalentamiento_activo := false
  esd_activo := false
  esd_listo_para_reinicio := false
  ultimo_estado_boton_esd := true
  ultimo_estado_boton_encoder := true
  ultimo_tiempo_boton_encoder := 0
  ultima_posicion_encoder := 0
  ultimo_tiempo_actualizacion := 0
  ultimo_log := 0
  valvula_alivio := false
  sistema_purga_a := false
  estado_alivio := false
  estado_purga := false
  estado_flujo := Flujo.none
  led_flujo := false
  laser_indicador := false

/-- Clamp used by the manual setpoint adjustments: `max(lo, min(hi, x))`. -/
def clamp (lo hi x : ℚ) : ℚ := max lo (min hi x)

/-- Active-low falling edge: `estado != ultimo and not estado`. -/
def flancoBajada (ultimo actual : Bool) : Bool := (actual != ultimo) && !actual

/-- ESD-button handling at the top of the loop: a falling edge activates ESD
when inactive, or clears it when `esd_listo_para_reinicio` is set; the stored
button state is always refreshed. -/
def pasoBotonEsd (s : Estado) (boton : Bool) : Estado :=
  if flancoBajada s.ultimo_estado_boton_esd boton = true then
    (if s.esd_activo = false then
      {s with esd_activo := true, esd_listo_para_reinicio := false,
              ultimo_estado_boton_esd := boton}
     else if s.esd_listo_para_reinicio = true then
      {s with esd_activo := false, ultimo_estado_boton_esd := boton}
     else {s with ultimo_estado_boton_esd := boton})
  else {s with ultimo_estado_boton_esd := boton}

/-- Pressure-recovery hysteresis latch: enters at `presion <= 220` when not
already active, exits at `presion > 220 + 20` (activation is evaluated before
deactivation, as in the source). -/
def evalRecuperacion (activa : Bool) (p : ℚ) : Bool :=
  if (if p ≤ PRESION_RECUPERACION ∧ activa = false then true else activa) = true
      ∧ p > PRESION_RECUPERACION + 20 then false
  else (if p ≤ PRESION_RECUPERACION ∧ activa = false then true else activa)

/-- Preheat hysteresis latch: enters at `temperatura <= 110`, exits at
`temperatura > 110 + 20`. -/
def evalPrecalentamiento (activo : Bool) (t : ℚ) : Bool :=
  if (if t ≤ TEMPERATURA_PRECALENTAMIENTO ∧ activo = false then true else activo) = true
      ∧ t > TEMPERATURA_PRECALENTAMIENTO + 20 then false
  else (if t ≤ TEMPERATURA_PRECALENTAMIENTO ∧ activo = false then true else activo)

/-- Encoder delta consumed this tick: current position minus the stored one. -/
def deltaPosicion (s : Estado) (e : Entrada) : ℤ :=
  e.posicion_encoder - s.ultima_posicion_encoder

/-- Latch state the normal tick computes for pressure recovery. -/
def recupTras (s : Estado) : Bool :=
  evalRecuperacion s.recuperacion_presion_activa s.presion_simulada

/-- Latch state the normal tick computes for preheat. -/
def precalTras (s : Estado) : Bool :=
  evalPrecalentamiento s.precalentamiento_activo s.temperatura_simulada

/-- Manual valve adjustment: applied only when no special mode is active and
the control mode is pressure (`modo_actual == 0`), then clamped to [0,100]. -/
def ajusteValvula (valv : ℚ) (delta : ℤ) (modo : ℕ) (recup precal : Bool) : ℚ :=
  if recup = false ∧ precal = false ∧ modo = 0 then
    clamp VALVULA_MODULANTE_MIN VALVULA_MODULANTE_MAX
      (valv + (delta : ℚ) * SENSIBILIDAD_ENCODER_PRESION)
  else valv

/-- Manual superheater adjustment: applied only when no special mode is active
and the control mode is temperature, then clamped to [0,100]. -/
def ajusteSupercalentador (sup : ℚ) (delta : ℤ) (modo : ℕ) (recup precal : Bool) : ℚ :=
  if recup = false ∧ precal = false ∧ ¬ modo = 0 then
    clamp SUPERCALENTADOR_MIN SUPERCALENTADOR_MAX
      (sup + (delta : ℚ) * SENSIBILIDAD_ENCODER_TEMPERATURA)
  else sup

/-- Recovery mode forces the modulating valve shut. -/
def forzarValvula (v : ℚ) (recup : Bool) : ℚ := if recup = true then 0 else v

/-- Preheat mode forces the superheater to full power. -/
def forzarSupercalentador (c : ℚ) (precal : Bool) : ℚ := if precal = true then 100 else c

/-- Valve percentage after the normal tick's manual adjustment and forcing. -/
def valvulaNormal (s : Estado) (e : Entrada) : ℚ :=
  forzarValvula
    (ajusteValvula s.porcentaje_valvula_modulante (deltaPosicion s e) s.modo_actual
      (recupTras s) (precalTras s))
    (recupTras s)

/-- Superheater percentage after the normal tick's manual adjustment and forcing. -/
def supercalNormal (s : Estado) (e : Entrada) : ℚ :=
  forzarSupercalentador
    (ajusteSupercalentador s.comando_supercalentador (deltaPosicion s e) s.modo_actual
      (recupTras s) (precalTras s))
    (precalTras s)

/-- First-order pressure response to the valve command (normal mode). -/
def fisicaPresion (p valv dt : ℚ) : ℚ :=
  if valv < 50 then p + (50 - valv) * dt * (1/10)
  else if valv > 50 then p - (valv - 50) * dt * (1/10)
  else p

/-- First-order temperature response to the superheater command (normal mode). -/
def fisicaTemperatura (t sup dt : ℚ) : ℚ :=
  if sup > 50 then t + (sup - 50) * dt * (1/10)
  else if sup < 50 then t - (50 - sup) * dt * (1/10)
  else t

/-- End-of-tick pressure for the normal path (physics plus the `max(_, 0)` clamp). -/
def presionNormal (s : Estado) (e : Entrada) (dt : ℚ) : ℚ :=
  max (fisicaPresion s.presion_simulada (valvulaNormal s e) dt) 0

/-- End-of-tick temperature for the normal path. -/
def temperaturaNormal (s : Estado) (e : Entrada) (dt : ℚ) : ℚ :=
  max (fisicaTemperatura s.temperatura_simulada (supercalNormal s e) dt) 0

/-- Mode-button state change observed this tick. -/
def cambioBotonEncoder (s : Estado) (e : Entrada) : Bool :=
  e.boton_encoder != s.ultimo_estado_boton_encoder

/-- Mode-toggle condition: unchanged and pressed (active low) with more than
`TIEMPO_DEBOUNCE_MS` elapsed since the stored button timestamp. -/
def toggleModo (s : Estado) (e : Entrada) : Bool :=
  !(cambioBotonEncoder s e) && (e.boton_encoder == false)
    && decide ((e.tiempo - s.ultimo_tiempo_boton_encoder) * 1000 > TIEMPO_DEBOUNCE_MS)

/-- Flow-regime classification from the (already updated) process values:
regime A at `310 <= p <= 350` and `140 <= t <= 160`, regime B at
`260 <= p <= 300` and `160 <= t <= 170`, otherwise none. -/
def clasificarFlujo (p t : ℚ) : Flujo :=
  if 310 ≤ p ∧ p ≤ 350 ∧ 140 ≤ t ∧ t ≤ 160 then Flujo.A
  else if 260 ≤ p ∧ p ≤ 300 ∧ 160 ≤ t ∧ t ≤ 170 then Flujo.B
  else Flujo.none

/-- Flow LED drive: regime A blinks on `int(tiempo*5) % 2 == 0`, regime B is
solid on, no regime keeps it off. -/
def ledDeFlujo (f : Flujo) (tiempo : ℚ) : Bool :=
  match f with
  | Flujo.A => Int.floor (tiempo * 5) % 2 == 0
  | Flujo.B => true
  | Flujo.none => false

/-- Flow regime the normal tick stores: evaluated only when neither special
mode is active, otherwise left at `"None"`. -/
def flujoNormal (s : Estado) (e : Entrada) (dt : ℚ) : Flujo :=
  if recupTras s = false ∧ precalTras s = false then
    clasificarFlujo (presionNormal s e dt) (temperaturaNormal s e dt)
  else Flujo.none

/-- Normal-operation body (`if not esd_activo:`): consume the encoder delta,
check the automatic trip, update the hysteresis latches, apply manual
adjustment and special-mode forcing, run the process model, handle the
debounced mode button, reset the safety valves and classify the flow. -/
def pasoNormal (s : Estado) (e : Entrada) (dt : ℚ) : Estado :=
  if s.presion_simulada ≥ PRESION_EMERGENCIA_ALTA
      ∨ s.temperatura_simulada ≥ TEMPERATURA_EMERGENCIA_ALTA then
    {s with ultima_posicion_encoder := e.posicion_encoder,
            esd_activo := true, esd_listo_para_reinicio := false}
  else
    {s with
      ultima_posicion_encoder := e.posicion_encoder,
      recuperacion_presion_activa := recupTras s,
      precalentamiento_activo := precalTras s,
      porcentaje_valvula_modulante := valvulaNormal s e,
      comando_supercalentador := supercalNormal s e,
      presion_simulada := presionNormal s e dt,
      temperatura_simulada := temperaturaNormal s e dt,
      modo_actual := if toggleModo s e = true then 1 - s.modo_actual else s.modo_actual,
      ultimo_estado_boton_encoder :=
        if cambioBotonEncoder s e = true then e.boton_encoder
        else s.ultimo_estado_boton_encoder,
      ultimo_tiempo_boton_encoder :=
        if cambioBotonEncoder s e = true ∨ toggleModo s e = true then e.tiempo
        else s.ultimo_tiempo_boton_encoder,
      valvula_alivio := false,
      estado_alivio := false,
      sistema_purga_a := false,
      estado_purga := false,
      estado_flujo := flujoNormal s e dt,
      led_flujo := ledDeFlujo (flujoNormal s e dt) e.tiempo,
      laser_indicador := false}

/-- Valve command chosen by the ESD pressure law. -/
def valvulaEsd (p : ℚ) : ℚ :=
  if |p - PRESION_INICIAL| > TOLERANCIA_PRESION_ESD then
    (if p > PRESION_INICIAL then 50 else 0)
  else 50

/-- Relief-valve output of the ESD pressure law. -/
def alivioEsd (p : ℚ) : Bool :=
  decide (|p - PRESION_INICIAL| > TOLERANCIA_PRESION_ESD ∧ p > PRESION_INICIAL)

/-- Superheater command chosen by the ESD temperature law. -/
def supercalentadorEsd (t : ℚ) : ℚ :=
  if |t - TEMPERATURA_INICIAL| > TOLERANCIA_TEMPERATURA_ESD then
    (if t > TEMPERATURA_INICIAL then 50 else 100)
  else 50

/-- Purge output of the ESD temperature law. -/
def purgaEsd (t : ℚ) : Bool :=
  decide (|t - TEMPERATURA_INICIAL| > TOLERANCIA_TEMPERATURA_ESD ∧ t > TEMPERATURA_INICIAL)

/-- Pressure after the ESD law's accelerated decay (applied only when above
nominal and out of tolerance). -/
def presionTrasLeyEsd (p dt : ℚ) : ℚ :=
  if |p - PRESION_INICIAL| > TOLERANCIA_PRESION_ESD ∧ p > PRESION_INICIAL then
    p - (p - PRESION_INICIAL) * dt * (1/5)
  else p

/-- Temperature after the ESD law's accelerated decay. -/
def temperaturaTrasLeyEsd (t dt : ℚ) : ℚ :=
  if |t - TEMPERATURA_INICIAL| > TOLERANCIA_TEMPERATURA_ESD ∧ t > TEMPERATURA_INICIAL then
    t - (t - TEMPERATURA_INICIAL) * dt * (1/5)
  else t

/-- ESD-mode pressure physics: identical to the normal model except that the
decrease branch is suppressed while the relief valve is open. -/
def fisicaPresionEsd (p valv dt : ℚ) (alivio : Bool) : ℚ :=
  if valv < 50 then p + (50 - valv) * dt * (1/10)
  else if valv > 50 ∧ alivio = false then p - (valv - 50) * dt * (1/10)
  else p

/-- ESD-mode temperature physics: the increase branch is suppressed while the
purge is open. -/
def fisicaTemperaturaEsd (t sup dt : ℚ) (purga : Bool) : ℚ :=
  if sup > 50 ∧ purga = false then t + (sup - 50) * dt * (1/10)
  else if sup < 50 then t - (50 - sup) * dt * (1/10)
  else t

/-- ESD-mode body (`if esd_activo:`): run both control laws, latch
`esd_listo_para_reinicio` when both corrected values are inside tolerance,
continue the physics, and keep the flow LED off.  The stored `estado_flujo`
is deliberately not touched, mirroring the source. -/
def pasoEsd (s : Estado) (dt : ℚ) : Estado :=
  {s with
    porcentaje_valvula_modulante := valvulaEsd s.presion_simulada,
    comando_supercalentador := supercalentadorEsd s.temperatura_simulada,
    valvula_alivio := alivioEsd s.presion_simulada,
    estado_alivio := alivioEsd s.presion_simulada,
    sistema_purga_a := purgaEsd s.temperatura_simulada,
    estado_purga := purgaEsd s.temperatura_simulada,
    esd_listo_para_reinicio :=
      if |presionTrasLeyEsd s.presion_simulada dt - PRESION_INICIAL| ≤ TOLERANCIA_PRESION_ESD
          ∧ |temperaturaTrasLeyEsd s.temperatura_simulada dt - TEMPERATURA_INICIAL|
              ≤ TOLERANCIA_TEMPERATURA_ESD then true
      else s.esd_listo_para_reinicio,
    presion_simulada :=
      max (fisicaPresionEsd (presionTrasLeyEsd s.presion_simulada dt)
            (valvulaEsd s.presion_simulada) dt (alivioEsd s.presion_simulada)) 0,
    temperatura_simulada :=
      max (fisicaTemperaturaEsd (temperaturaTrasLeyEsd s.temperatura_simulada dt)
            (supercalentadorEsd s.temperatura_simulada) dt (purgaEsd s.temperatura_simulada)) 0,
    led_flujo := false,
    laser_indicador :=
      alivioEsd s.presion_simulada || purgaEsd s.temperatura_simulada}

/-- Second half of the ESD dispatch: if the normal body (or the button step)
left ESD active, the ESD body runs in the same iteration. -/
def trasNormal (s : Estado) (dt : ℚ) : Estado :=
  if s.esd_activo = true then pasoEsd s dt else s

/-- One loop body after the standby gate: button handling, then the normal
body when ESD is inactive, then the ESD body when it is (or became) active. -/
def cuerpoTick (s : Estado) (e : Entrada) (dt : ℚ) : Estado :=
  if (pasoBotonEsd s e.boton_esd).esd_activo = false then
    trasNormal (pasoNormal (pasoBotonEsd s e.boton_esd) e dt) dt
  else pasoEsd (pasoBotonEsd s e.boton_esd) dt

/-- Telemetry cadence: `ultimo_log` advances when more than 100 ms passed. -/
def registrarLog (s : Estado) (e : Entrada) : Estado :=
  if e.tiempo - s.ultimo_log > 1/10 then {s with ultimo_log := e.tiempo} else s

/-- One full loop iteration: refresh the timestamp (computing
`delta_tiempo = (tiempo_actual - ultimo_tiempo_actualizacion) / 2` first),
skip everything during the initial standby window, otherwise run the body and
the telemetry cadence update. -/
def tick (s : Estado) (e : Entrada) : Estado :=
  if e.tiempo < duracion_standby then {s with ultimo_tiempo_actualizacion := e.tiempo}
  else
    registrarLog
      (cuerpoTick {s with ultimo_tiempo_actualizacion := e.tiempo} e
        ((e.tiempo - s.ultimo_tiempo_actualizacion) / 2))
      e

/-- Fields of one serialized telemetry line (strings abstracted to their
semantic values; the two numeric format widths are not modelled). -/
structure Registro : Type where
  p : ℚ
  t : ℚ
  mv : ℚ
  sh : ℚ
  f : Flujo
  modo : ℕ
  esd : Bool
  relief : Bool
  purge : Bool
deriving DecidableEq

/-- Record built from the variables as they stand when the logger fires. -/
def registro (s : Estado) : Registro where
  p := s.presion_simulada
  t := s.temperatura_simulada
  mv := s.porcentaje_valvula_modulante
  sh := s.comando_supercalentador
  f := s.estado_flujo
  modo := s.modo_actual
  esd := s.esd_activo
  relief := s.estado_alivio
  purge := s.estado_purga

/-- Telemetry emitted by a tick, if any: nothing during standby or inside the
100 ms window, otherwise the record of the post-body state. -/
def salidaTelemetria (s : Estado) (e : Entrada) : Option Registro :=
  if e.tiempo < duracion_standby then Option.none
  else if e.tiempo - s.ultimo_log > 1/10 then Option.some (registro (tick s e))
  else Option.none

/-- ESDState `Running`. -/
abbrev Running (s : Estado) : Prop := s.esd_activo = false

/-- ESDState `Active` (tripped, not yet converged). -/
abbrev Active (s : Estado) : Prop :=
  s.esd_activo = true ∧ s.esd_listo_para_reinicio = false

/-- ESDState `ReadyForReset` (tripped and converged). -/
abbrev ReadyForReset (s : Estado) : Prop :=
  s.esd_activo = true ∧ s.esd_listo_para_reinicio = true

/-- States reachable from startup under some input sequence. -/
def Alcanzable (s : Estado) : Prop :=
  ∃ l : List Entrada, s = List.foldl tick estadoInicial l

/-! Projection lemmas for the tick sub-steps. -/

@[simp] lemma pasoBotonEsd_presion (s : Estado) (b : Bool) :
    (pasoBotonEsd s b).presion_simulada = s.presion_simulada := by
  unfold pasoBotonEsd; split_ifs <;> rfl

@[simp] lemma pasoBotonEsd_temperatura (s : Estado) (b : Bool) :
    (pasoBotonEsd s b).temperatura_simulada = s.temperatura_simulada := by
  unfold pasoBotonEsd; split_ifs <;> rfl

@[simp] lemma pasoBotonEsd_valvula (s : Estado) (b : Bool) :
    (pasoBotonEsd s b).porcentaje_valvula_modulante = s.porcentaje_valvula_modulante := by
  unfold pasoBotonEsd; split_ifs <;> rfl

@[simp] lemma pasoBotonEsd_supercalentador (s : Estado) (b : Bool) :
    (pasoBotonEsd s b).comando_supercalentador = s.comando_supercalentador := by
  unfold pasoBotonEsd; split_ifs <;> rfl

@[simp] lemma pasoBotonEsd_modo (s : Estado) (b : Bool) :
    (pasoBotonEsd s b).modo_actual = s.modo_actual := by
  unfold pasoBotonEsd; split_ifs <;> rfl

@[simp] lemma pasoBotonEsd_recuperacion (s : Estado) (b : Bool) :
    (pasoBotonEsd s b).recuperacion_presion_activa = s.recuperacion_presion_activa := by
  unfold pasoBotonEsd; split_ifs <;> rfl

@[simp] lemma pasoBotonEsd_precalentamiento (s : Estado) (b : Bool) :
    (pasoBotonEsd s b).precalentamiento_activo = s.precalentamiento_activo := by
  unfold pasoBotonEsd; split_ifs <;> rfl

@[simp] lemma pasoBotonEsd_ultima_posicion (s : Estado) (b : Bool) :
    (pasoBotonEsd s b).ultima_posicion_encoder = s.ultima_posicion_encoder := by
  unfold pasoBotonEsd; split_ifs <;> rfl

@[simp] lemma pasoBotonEsd_boton_encoder (s : Estado) (b : Bool) :
    (pasoBotonEsd s b).ultimo_estado_boton_encoder = s.ultimo_estado_boton_encoder := by
  unfold pasoBotonEsd; split_ifs <;> rfl

@[simp] lemma pasoBotonEsd_tiempo_boton (s : Estado) (b : Bool) :
    (pasoBotonEsd s b).ultimo_tiempo_boton_encoder = s.ultimo_tiempo_boton_encoder := by
  unfold pasoBotonEsd; split_ifs <;> rfl

@[simp] lemma pasoBotonEsd_estado_flujo (s : Estado) (b : Bool) :
    (pasoBotonEsd s b).estado_flujo = s.estado_flujo := by
  unfold pasoBotonEsd; split_ifs <;> rfl

@[simp] lemma pasoBotonEsd_ultimo_log (s : Estado) (b : Bool) :
    (pasoBotonEsd s b).ultimo_log = s.ultimo_log := by
  unfold pasoBotonEsd; split_ifs <;> rfl

lemma pasoBotonEsd_sin_flanco {s : Estado} {b : Bool}
    (h : flancoBajada s.ultimo_estado_boton_esd b = false) :
    pasoBotonEsd s b = {s with ultimo_estado_boton_esd := b} := by
  unfold pasoBotonEsd; simp [h]

lemma pasoBotonEsd_activa {s : Estado} {b : Bool}
    (h : flancoBajada s.ultimo_estado_boton_esd b = true) (he : s.esd_activo = false) :
    pasoBotonEsd s b =
      {s with esd_activo := true, esd_listo_para_reinicio := false,
              ultimo_estado_boton_esd := b} := by
  unfold pasoBotonEsd; simp [h, he]

lemma pasoBotonEsd_reinicia {s : Estado} {b : Bool}
    (h : flancoBajada s.ultimo_estado_boton_esd b = true) (he : s.esd_activo = true)
    (hl : s.esd_listo_para_reinicio = true) :
    pasoBotonEsd s b = {s with esd_activo := false, ultimo_estado_boton_esd := b} := by
  unfold pasoBotonEsd; simp [h, he, hl]

lemma pasoBotonEsd_ignora {s : Estado} {b : Bool}
    (h : flancoBajada s.ultimo_estado_boton_esd b = true) (he : s.esd_activo = true)
    (hl : s.esd_listo_para_reinicio = false) :
    pasoBotonEsd s b = {s with ultimo_estado_boton_esd := b} := by
  unfold pasoBotonEsd; simp [h, he, hl]

@[simp] lemma pasoEsd_esd_activo (s : Estado) (dt : ℚ) :
    (pasoEsd s dt).esd_activo = s.esd_activo := rfl

@[simp] lemma pasoEsd_modo (s : Estado) (dt : ℚ) :
    (pasoEsd s dt).modo_actual = s.modo_actual := rfl

@[simp] lemma pasoEsd_recuperacion (s : Estado) (dt : ℚ) :
    (pasoEsd s dt).recuperacion_presion_activa = s.recuperacion_presion_activa := rfl

@[simp] lemma pasoEsd_precalentamiento (s : Estado) (dt : ℚ) :
    (pasoEsd s dt).precalentamiento_activo = s.precalentamiento_activo := rfl

@[simp] lemma pasoEsd_ultima_posicion (s : Estado) (dt : ℚ) :
    (pasoEsd s dt).ultima_posicion_encoder = s.ultima_posicion_encoder := rfl

@[simp] lemma pasoEsd_estado_flujo (s : Estado) (dt : ℚ) :
    (pasoEsd s dt).estado_flujo = s.estado_flujo := rfl

@[simp] lemma pasoEsd_led_flujo (s : Estado) (dt : ℚ) :
    (pasoEsd s dt).led_flujo = false := rfl

@[simp] lemma pasoEsd_ultimo_log (s : Estado) (dt : ℚ) :
    (pasoEsd s dt).ultimo_log = s.ultimo_log := rfl

lemma pasoEsd_listo (s : Estado) (dt : ℚ) :
    (pasoEsd s dt).esd_listo_para_reinicio =
      if |presionTrasLeyEsd s.presion_simulada dt - PRESION_INICIAL| ≤ TOLERANCIA_PRESION_ESD
          ∧ |temperaturaTrasLeyEsd s.temperatura_simulada dt - TEMPERATURA_INICIAL|
              ≤ TOLERANCIA_TEMPERATURA_ESD then true
      else s.esd_listo_para_reinicio := rfl

@[simp] lemma registrarLog_presion (s : Estado) (e : Entrada) :
    (registrarLog s e).presion_simulada = s.presion_simulada := by
  unfold registrarLog; split_ifs <;> rfl

@[simp] lemma registrarLog_temperatura (s : Estado) (e : Entrada) :
    (registrarLog s e).temperatura_simulada = s.temperatura_simulada := by
  unfold registrarLog; split_ifs <;> rfl

@[simp] lemma registrarLog_valvula (s : Estado) (e : Entrada) :
    (registrarLog s e).porcentaje_valvula_modulante = s.porcentaje_valvula_modulante := by
  unfold registrarLog; split_ifs <;> rfl

@[simp] lemma registrarLog_supercalentador (s : Estado) (e : Entrada) :
    (registrarLog s e).comando_supercalentador = s.comando_supercalentador := by
  unfold registrarLog; split_ifs <;> rfl

@[simp] lemma registrarLog_modo (s : Estado) (e : Entrada) :
    (registrarLog s e).modo_actual = s.modo_actual := by
  unfold registrarLog; split_ifs <;> rfl

@[simp] lemma registrarLog_recuperacion (s : Estado) (e : Entrada) :
    (registrarLog s e).recuperacion_presion_activa = s.recuperacion_presion_activa := by
  unfold registrarLog; split_ifs <;> rfl

@[simp] lemma registrarLog_precalentamiento (s : Estado) (e : Entrada) :
    (registrarLog s e).precalentamiento_activo = s.precalentamiento_activo := by
  unfold registrarLog; split_ifs <;> rfl

@[simp] lemma registrarLog_esd (s : Estado) (e : Entrada) :
    (registrarLog s e).esd_activo = s.esd_activo := by
  unfold registrarLog; split_ifs <;> rfl

@[simp] lemma registrarLog_listo (s : Estado) (e : Entrada) :
    (registrarLog s e).esd_listo_para_reinicio = s.esd_listo_para_reinicio := by
  unfold registrarLog; split_ifs <;> rfl

@[simp] lemma registrarLog_ultima_posicion (s : Estado) (e : Entrada) :
    (registrarLog s e).ultima_posicion_encoder = s.ultima_posicion_encoder := by
  unfold registrarLog; split_ifs <;> rfl

@[simp] lemma registrarLog_boton_encoder (s : Estado) (e : Entrada) :
    (registrarLog s e).ultimo_estado_boton_encoder = s.ultimo_estado_boton_encoder := by
  unfold registrarLog; split_ifs <;> rfl

@[simp] lemma registrarLog_tiempo_boton (s : Estado) (e : Entrada) :
    (registrarLog s e).ultimo_tiempo_boton_encoder = s.ultimo_tiempo_boton_encoder := by
  unfold registrarLog; split_ifs <;> rfl

@[simp] lemma registrarLog_alivio (s : Estado) (e : Entrada) :
    (registrarLog s e).valvula_alivio = s.valvula_alivio := by
  unfold registrarLog; split_ifs <;> rfl

@[simp] lemma registrarLog_purga (s : Estado) (e : Entrada) :
    (registrarLog s e).sistema_purga_a = s.sistema_purga_a := by
  unfold registrarLog; split_ifs <;> rfl

@[simp] lemma registrarLog_estado_alivio (s : Estado) (e : Entrada) :
    (registrarLog s e).estado_alivio = s.estado_alivio := by
  unfold registrarLog; split_ifs <;> rfl

@[simp] lemma registrarLog_estado_purga (s : Estado) (e : Entrada) :
    (registrarLog s e).estado_purga = s.estado_purga := by
  unfold registrarLog; split_ifs <;> rfl

@[simp] lemma registrarLog_estado_flujo (s : Estado) (e : Entrada) :
    (registrarLog s e).estado_flujo = s.estado_flujo := by
  unfold registrarLog; split_ifs <;> rfl

@[simp] lemma registrarLog_led_flujo (s : Estado) (e : Entrada) :
    (registrarLog s e).led_flujo = s.led_flujo := by
  unfold registrarLog; split_ifs <;> rfl

lemma tick_standby {s : Estado} {e : Entrada} (h : e.tiempo < duracion_standby) :
    tick s e = {s with ultimo_tiempo_actualizacion := e.tiempo} := by
  unfold tick; rw [if_pos h]

lemma tick_cuerpo {s : Estado} {e : Entrada} (h : ¬ e.tiempo < duracion_standby) :
    tick s e =
      registrarLog
        (cuerpoTick {s with ultimo_tiempo_actualizacion := e.tiempo} e
          ((e.tiempo - s.ultimo_tiempo_actualizacion) / 2)) e := by
  unfold tick; rw [if_neg h]

lemma pasoNormal_disparo_esd {s : Estado} {e : Entrada} {dt : ℚ}
    (h : s.presion_simulada ≥ PRESION_EMERGENCIA_ALTA
      ∨ s.temperatura_simulada ≥ TEMPERATURA_EMERGENCIA_ALTA) :
    (pasoNormal s e dt).esd_activo = true := by
  unfold pasoNormal; rw [if_pos h]

lemma pasoNormal_disparo_listo {s : Estado} {e : Entrada} {dt : ℚ}
    (h : s.presion_simulada ≥ PRESION_EMERGENCIA_ALTA
      ∨ s.temperatura_simulada ≥ TEMPERATURA_EMERGENCIA_ALTA) :
    (pasoNormal s e dt).esd_listo_para_reinicio = false := by
  unfold pasoNormal; rw [if_pos h]

lemma pasoNormal_disparo_recuperacion {s : Estado} {e : Entrada} {dt : ℚ}
    (h : s.presion_simulada ≥ PRESION_EMERGENCIA_ALTA
      ∨ s.temperatura_simulada ≥ TEMPERATURA_EMERGENCIA_ALTA) :
    (pasoNormal s e dt).recuperacion_presion_activa = s.recuperacion_presion_activa := by
  unfold pasoNormal; rw [if_pos h]

lemma pasoNormal_disparo_precalentamiento {s : Estado} {e : Entrada} {dt : ℚ}
    (h : s.presion_simulada ≥ PRESION_EMERGENCIA_ALTA
      ∨ s.temperatura_simulada ≥ TEMPERATURA_EMERGENCIA_ALTA) :
    (pasoNormal s e dt).precalentamiento_activo = s.precalentamiento_activo := by
  unfold pasoNormal; rw [if_pos h]

lemma pasoNormal_disparo_estado_flujo {s : Estado} {e : Entrada} {dt : ℚ}
    (h : s.presion_simulada ≥ PRESION_EMERGENCIA_ALTA
      ∨ s.temperatura_simulada ≥ TEMPERATURA_EMERGENCIA_ALTA) :
    (pasoNormal s e dt).estado_flujo = s.estado_flujo := by
  unfold pasoNormal; rw [if_pos h]

lemma pasoNormal_sin_disparo_esd {s : Estado} {e : Entrada} {dt : ℚ}
    (h : ¬ (s.presion_simulada ≥ PRESION_EMERGENCIA_ALTA
      ∨ s.temperatura_simulada ≥ TEMPERATURA_EMERGENCIA_ALTA)) :
    (pasoNormal s e dt).esd_activo = s.esd_activo := by
  unfold pasoNormal; rw [if_neg h]

lemma pasoNormal_sin_disparo_listo {s : Estado} {e : Entrada} {dt : ℚ}
    (h : ¬ (s.presion_simulada ≥ PRESION_EMERGENCIA_ALTA
      ∨ s.temperatura_simulada ≥ TEMPERATURA_EMERGENCIA_ALTA)) :
    (pasoNormal s e dt).esd_listo_para_reinicio = s.esd_listo_para_reinicio := by
  unfold pasoNormal; rw [if_neg h]

lemma pasoNormal_sin_disparo_recuperacion {s : Estado} {e : Entrada} {dt : ℚ}
    (h : ¬ (s.presion_simulada ≥ PRESION_EMERGENCIA_ALTA
      ∨ s.temperatura_simulada ≥ TEMPERATURA_EMERGENCIA_ALTA)) :
    (pasoNormal s e dt).recuperacion_presion_activa = recupTras s := by
  unfold pasoNormal; rw [if_neg h]

lemma pasoNormal_sin_disparo_precalentamiento {s : Estado} {e : Entrada} {dt : ℚ}
    (h : ¬ (s.presion_simulada ≥ PRESION_EMERGENCIA_ALTA
      ∨ s.temperatura_simulada ≥ TEMPERATURA_EMERGENCIA_ALTA)) :
    (pasoNormal s e dt).precalentamiento_activo = precalTras s := by
  unfold pasoNormal; rw [if_neg h]

lemma pasoNormal_sin_disparo_valvula {s : Estado} {e : Entrada} {dt : ℚ}
    (h : ¬ (s.presion_simulada ≥ PRESION_EMERGENCIA_ALTA
      ∨ s.temperatura_simulada ≥ TEMPERATURA_EMERGENCIA_ALTA)) :
    (pasoNormal s e dt).porcentaje_valvula_modulante = valvulaNormal s e := by
  unfold pasoNormal; rw [if_neg h]

lemma pasoNormal_sin_disparo_supercalentador {s : Estado} {e : Entrada} {dt : ℚ}
    (h : ¬ (s.presion_simulada ≥ PRESION_EMERGENCIA_ALTA
      ∨ s.temperatura_simulada ≥ TEMPERATURA_EMERGENCIA_ALTA)) :
    (pasoNormal s e dt).comando_supercalentador = supercalNormal s e := by
  unfold pasoNormal; rw [if_neg h]

lemma pasoNormal_sin_disparo_modo {s : Estado} {e : Entrada} {dt : ℚ}
    (h : ¬ (s.presion_simulada ≥ PRESION_EMERGENCIA_ALTA
      ∨ s.temperatura_simulada ≥ TEMPERATURA_EMERGENCIA_ALTA)) :
    (pasoNormal s e dt).modo_actual
      = if toggleModo s e = true then 1 - s.modo_actual else s.modo_actual := by
  unfold pasoNormal; rw [if_neg h]

lemma pasoNormal_sin_disparo_tiempo_boton {s : Estado} {e : Entrada} {dt : ℚ}
    (h : ¬ (s.presion_simulada ≥ PRESION_EMERGENCIA_ALTA
      ∨ s.temperatura_simulada ≥ TEMPERATURA_EMERGENCIA_ALTA)) :
    (pasoNormal s e dt).ultimo_tiempo_boton_encoder
      = if cambioBotonEncoder s e = true ∨ toggleModo s e = true then e.tiempo
        else s.ultimo_tiempo_boton_encoder := by
  unfold pasoNormal; rw [if_neg h]

lemma pasoNormal_sin_disparo_estado_flujo {s : Estado} {e : Entrada} {dt : ℚ}
    (h : ¬ (s.presion_simulada ≥ PRESION_EMERGENCIA_ALTA
      ∨ s.temperatura_simulada ≥ TEMPERATURA_EMERGENCIA_ALTA)) :
    (pasoNormal s e dt).estado_flujo = flujoNormal s e dt := by
  unfold pasoNormal; rw [if_neg h]

lemma pasoNormal_sin_disparo_led {s : Estado} {e : Entrada} {dt : ℚ}
    (h : ¬ (s.presion_simulada ≥ PRESION_EMERGENCIA_ALTA
      ∨ s.temperatura_simulada ≥ TEMPERATURA_EMERGENCIA_ALTA)) :
    (pasoNormal s e dt).led_flujo = ledDeFlujo (flujoNormal s e dt) e.tiempo := by
  unfold pasoNormal; rw [if_neg h]

lemma pasoNormal_sin_disparo_alivio {s : Estado} {e : Entrada} {dt : ℚ}
    (h : ¬ (s.presion_simulada ≥ PRESION_EMERGENCIA_ALTA
      ∨ s.temperatura_simulada ≥ TEMPERATURA_EMERGENCIA_ALTA)) :
    (pasoNormal s e dt).valvula_alivio = false ∧
    (pasoNormal s e dt).estado_alivio = false ∧
    (pasoNormal s e dt).sistema_purga_a = false ∧
    (pasoNormal s e dt).estado_purga = false := by
  unfold pasoNormal; rw [if_neg h]
  exact ⟨rfl, rfl, rfl, rfl⟩

/-! Hysteresis-latch lemmas. -/

lemma evalRecuperacion_alta {a : Bool} {p : ℚ} (h : PRESION_RECUPERACION + 20 < p) :
    evalRecuperacion a p = false := by
  have hp : ¬ p ≤ PRESION_RECUPERACION := by
    unfold PRESION_RECUPERACION at h ⊢; linarith
  unfold evalRecuperacion
  cases a <;> simp [hp, h]

lemma evalRecuperacion_persiste {a : Bool} {p : ℚ} (ha : a = true)
    (h : p ≤ PRESION_RECUPERACION + 20) :
    evalRecuperacion a p = true := by
  have hp : ¬ p > PRESION_RECUPERACION + 20 := by linarith
  unfold evalRecuperacion
  simp [ha, hp]

lemma evalPrecalentamiento_alta {a : Bool} {t : ℚ}
    (h : TEMPERATURA_PRECALENTAMIENTO + 20 < t) :
    evalPrecalentamiento a t = false := by
  have ht : ¬ t ≤ TEMPERATURA_PRECALENTAMIENTO := by
    unfold TEMPERATURA_PRECALENTAMIENTO at h ⊢; linarith
  unfold evalPrecalentamiento
  cases a <;> simp [ht, h]

lemma evalPrecalentamiento_persiste {a : Bool} {t : ℚ} (ha : a = true)
    (h : t ≤ TEMPERATURA_PRECALENTAMIENTO + 20) :
    evalPrecalentamiento a t = true := by
  have ht : ¬ t > TEMPERATURA_PRECALENTAMIENTO + 20 := by linarith
  unfold evalPrecalentamiento
  simp [ha, ht]

/-! Convergence invariant: a converged (`ReadyForReset`) state always holds
both process values inside the ESD tolerances, because the convergence check
only fires on values the same tick's control law leaves untouched afterwards. -/

/-- Whenever ESD is active and flagged ready for reset, both process values
are inside the ESD tolerance bands. -/
def ToleranciaListo (s : Estado) : Prop :=
  s.esd_activo = true → s.esd_listo_para_reinicio = true →
    |s.presion_simulada - PRESION_INICIAL| ≤ TOLERANCIA_PRESION_ESD ∧
    |s.temperatura_simulada - TEMPERATURA_INICIAL| ≤ TOLERANCIA_TEMPERATURA_ESD

lemma presionTrasLeyEsd_en_tolerancia {p dt : ℚ}
    (h : |p - PRESION_INICIAL| ≤ TOLERANCIA_PRESION_ESD) :
    presionTrasLeyEsd p dt = p := by
  unfold presionTrasLeyEsd
  rw [if_neg]
  rintro ⟨h1, -⟩
  exact absurd h (by linarith)

lemma temperaturaTrasLeyEsd_en_tolerancia {t dt : ℚ}
    (h : |t - TEMPERATURA_INICIAL| ≤ TOLERANCIA_TEMPERATURA_ESD) :
    temperaturaTrasLeyEsd t dt = t := by
  unfold temperaturaTrasLeyEsd
  rw [if_neg]
  rintro ⟨h1, -⟩
  exact absurd h (by linarith)

lemma pasoEsd_converge {s : Estado} {dt : ℚ}
    (hp : |presionTrasLeyEsd s.presion_simulada dt - PRESION_INICIAL| ≤ TOLERANCIA_PRESION_ESD)
    (ht : |temperaturaTrasLeyEsd s.temperatura_simulada dt - TEMPERATURA_INICIAL|
            ≤ TOLERANCIA_TEMPERATURA_ESD) :
    (pasoEsd s dt).esd_listo_para_reinicio = true ∧
    |(pasoEsd s dt).presion_simulada - PRESION_INICIAL| ≤ TOLERANCIA_PRESION_ESD ∧
    |(pasoEsd s dt).temperatura_simulada - TEMPERATURA_INICIAL|
        ≤ TOLERANCIA_TEMPERATURA_ESD := by
  refine ⟨by rw [pasoEsd_listo, if_pos ⟨hp, ht⟩], ?_, ?_⟩
  · show |max (fisicaPresionEsd (presionTrasLeyEsd s.presion_simulada dt)
        (valvulaEsd s.presion_simulada) dt (alivioEsd s.presion_simulada)) 0
        - PRESION_INICIAL| ≤ TOLERANCIA_PRESION_ESD
    have hfis : fisicaPresionEsd (presionTrasLeyEsd s.presion_simulada dt)
        (valvulaEsd s.presion_simulada) dt (alivioEsd s.presion_simulada)
        = presionTrasLeyEsd s.presion_simulada dt := by
      by_cases h1 : |s.presion_simulada - PRESION_INICIAL| > TOLERANCIA_PRESION_ESD
      · by_cases h2 : s.presion_simulada > PRESION_INICIAL
        · have hv : valvulaEsd s.presion_simulada = 50 := by
            unfold valvulaEsd; rw [if_pos h1, if_pos h2]
          rw [hv]; unfold fisicaPresionEsd; norm_num
        · have hid : presionTrasLeyEsd s.presion_simulada dt = s.presion_simulada := by
            unfold presionTrasLeyEsd; rw [if_neg]; rintro ⟨-, hc⟩; exact h2 hc
          rw [hid] at hp; exact absurd hp (by linarith)
      · have hv : valvulaEsd s.presion_simulada = 50 := by
          unfold valvulaEsd; rw [if_neg h1]
        rw [hv]; unfold fisicaPresionEsd; norm_num
    rw [hfis]
    have hge : (0:ℚ) ≤ presionTrasLeyEsd s.presion_simulada dt := by
      have := abs_le.mp hp
      unfold PRESION_INICIAL TOLERANCIA_PRESION_ESD at this
      linarith [this.1]
    rw [max_eq_left hge]
    exact hp
  · show |max (fisicaTemperaturaEsd (temperaturaTrasLeyEsd s.temperatura_simulada dt)
        (supercalentadorEsd s.temperatura_simulada) dt (purgaEsd s.temperatura_simulada)) 0
        - TEMPERATURA_INICIAL| ≤ TOLERANCIA_TEMPERATURA_ESD
    have hfis : fisicaTemperaturaEsd (temperaturaTrasLeyEsd s.temperatura_simulada dt)
        (supercalentadorEsd s.temperatura_simulada) dt (purgaEsd s.temperatura_simulada)
        = temperaturaTrasLeyEsd s.temperatura_simulada dt := by
      by_cases h1 : |s.temperatura_simulada - TEMPERATURA_INICIAL| > TOLERANCIA_TEMPERATURA_ESD
      · by_cases h2 : s.temperatura_simulada > TEMPERATURA_INICIAL
        · have hv : supercalentadorEsd s.temperatura_simulada = 50 := by
            unfold supercalentadorEsd; rw [if_pos h1, if_pos h2]
          rw [hv]; unfold fisicaTemperaturaEsd; norm_num
        · have hid : temperaturaTrasLeyEsd s.temperatura_simulada dt
              = s.temperatura_simulada := by
            unfold temperaturaTrasLeyEsd; rw [if_neg]; rintro ⟨-, hc⟩; exact h2 hc
          rw [hid] at ht; exact absurd ht (by linarith)
      · have hv : supercalentadorEsd s.temperatura_simulada = 50 := by
          unfold supercalentadorEsd; rw [if_neg h1]
        rw [hv]; unfold fisicaTemperaturaEsd; norm_num
    rw [hfis]
    have hge : (0:ℚ) ≤ temperaturaTrasLeyEsd s.temperatura_simulada dt := by
      have := abs_le.mp ht
      unfold TEMPERATURA_INICIAL TOLERANCIA_TEMPERATURA_ESD at this
      linarith [this.1]
    rw [max_eq_left hge]
    exact ht

lemma toleranciaListo_tick (s : Estado) (e : Entrada) (hs : ToleranciaListo s) :
    ToleranciaListo (tick s e) := by
  by_cases hst : e.tiempo < duracion_standby
  · rw [tick_standby hst]
    intro h1 h2
    exact hs h1 h2
  · rw [tick_cuerpo hst]
    set s0 : Estado := {s with ultimo_tiempo_actualizacion := e.tiempo} with hs0def
    set dt : ℚ := (e.tiempo - s.ultimo_tiempo_actualizacion) / 2 with hdtdef
    unfold cuerpoTick
    by_cases hb : (pasoBotonEsd s0 e.boton_esd).esd_activo = false
    · rw [if_pos hb]
      unfold trasNormal
      by_cases htrip : s0.presion_simulada ≥ PRESION_EMERGENCIA_ALTA
          ∨ s0.temperatura_simulada ≥ TEMPERATURA_EMERGENCIA_ALTA
      · have htrip1 : (pasoBotonEsd s0 e.boton_esd).presion_simulada
              ≥ PRESION_EMERGENCIA_ALTA
            ∨ (pasoBotonEsd s0 e.boton_esd).temperatura_simulada
              ≥ TEMPERATURA_EMERGENCIA_ALTA := by
          simpa using htrip
        have hX : pasoNormal (pasoBotonEsd s0 e.boton_esd) e dt =
            {pasoBotonEsd s0 e.boton_esd with
              ultima_posicion_encoder := e.posicion_encoder,
              esd_activo := true, esd_listo_para_reinicio := false} := by
          unfold pasoNormal; rw [if_pos htrip1]
        rw [hX]
        rw [if_pos rfl]
        intro h1 h2
        simp only [registrarLog_listo] at h2
        by_cases hconv :
            |presionTrasLeyEsd ({pasoBotonEsd s0 e.boton_esd with
                ultima_posicion_encoder := e.posicion_encoder,
                esd_activo := true,
                esd_listo_para_reinicio := false} : Estado).presion_simulada dt
              - PRESION_INICIAL| ≤ TOLERANCIA_PRESION_ESD
            ∧ |temperaturaTrasLeyEsd ({pasoBotonEsd s0 e.boton_esd with
                ultima_posicion_encoder := e.posicion_encoder,
                esd_activo := true,
                esd_listo_para_reinicio := false} : Estado).temperatura_simulada dt
              - TEMPERATURA_INICIAL| ≤ TOLERANCIA_TEMPERATURA_ESD
        · obtain ⟨-, hP, hT⟩ := pasoEsd_converge hconv.1 hconv.2
          constructor
          · simpa using hP
          · simpa using hT
        · rw [pasoEsd_listo, if_neg hconv] at h2
          simp at h2
      · have hXe : (pasoNormal (pasoBotonEsd s0 e.boton_esd) e dt).esd_activo = false := by
          unfold pasoNormal
          rw [if_neg (by simpa using htrip)]
          simpa using hb
        rw [if_neg (by simp [hXe])]
        intro h1 h2
        rw [registrarLog_esd] at h1
        exact absurd h1 (by simp [hXe])
    · rw [if_neg hb]
      have hbe : (pasoBotonEsd s0 e.boton_esd).esd_activo = true := by
        revert hb; cases h : (pasoBotonEsd s0 e.boton_esd).esd_activo <;> simp
      intro h1 h2
      simp only [registrarLog_listo] at h2
      by_cases hconv :
          |presionTrasLeyEsd (pasoBotonEsd s0 e.boton_esd).presion_simulada dt
            - PRESION_INICIAL| ≤ TOLERANCIA_PRESION_ESD
          ∧ |temperaturaTrasLeyEsd (pasoBotonEsd s0 e.boton_esd).temperatura_simulada dt
            - TEMPERATURA_INICIAL| ≤ TOLERANCIA_TEMPERATURA_ESD
      · obtain ⟨-, hP, hT⟩ := pasoEsd_converge hconv.1 hconv.2
        constructor
        · simpa using hP
        · simpa using hT
      · rw [pasoEsd_listo, if_neg hconv] at h2
        by_cases hf : flancoBajada s0.ultimo_estado_boton_esd e.boton_esd = true
        · by_cases he0 : s0.esd_activo = false
          · rw [pasoBotonEsd_activa hf he0] at h2
            simp at h2
          · have he0t : s0.esd_activo = true := by
              revert he0; cases h : s0.esd_activo <;> simp
            by_cases hl0 : s0.esd_listo_para_reinicio = true
            · rw [pasoBotonEsd_reinicia hf he0t hl0] at hbe
              simp at hbe
            · have hl0f : s0.esd_listo_para_reinicio = false := by
                revert hl0; cases h : s0.esd_listo_para_reinicio <;> simp
              rw [pasoBotonEsd_ignora hf he0t hl0f] at h2
              have ha : s.esd_listo_para_reinicio = true := by simpa using h2
              have hbf : s.esd_listo_para_reinicio = false := by simpa using hl0f
              rw [hbf] at ha
              simp at ha
        · have hff : flancoBajada s0.ultimo_estado_boton_esd e.boton_esd = false := by
            revert hf
            cases h : flancoBajada s0.ultimo_estado_boton_esd e.boton_esd <;> simp
          rw [pasoBotonEsd_sin_flanco hff] at h2 hbe hconv
          have hesd : s.esd_activo = true := by simpa using hbe
          have hlisto : s.esd_listo_para_reinicio = true := by simpa using h2
          obtain ⟨hp, ht⟩ := hs hesd hlisto
          exact absurd
            ⟨by simpa [presionTrasLeyEsd_en_tolerancia hp] using hp,
             by simpa [temperaturaTrasLeyEsd_en_tolerancia ht] using ht⟩ hconv

lemma alcanzable_toleranciaListo {s : Estado} (h : Alcanzable s) : ToleranciaListo s := by
  obtain ⟨l, rfl⟩ := h
  suffices hgen : ∀ (l : List Entrada) (s0 : Estado),
      ToleranciaListo s0 → ToleranciaListo (List.foldl tick s0 l) by
    refine hgen l estadoInicial ?_
    intro h1 _
    simp [estadoInicial] at h1
  intro l
  induction l with
  | nil => intro s0 h0; simpa using h0
  | cons a t ih => intro s0 h0; exact ih (tick s0 a) (toleranciaListo_tick s0 a h0)

/-! Range invariant: both actuator percentages stay in [0,100] and both
process values stay nonnegative. -/

/-- Actuator commands in [0,100], process values nonnegative. -/
def EstadoValido (s : Estado) : Prop :=
  0 ≤ s.porcentaje_valvula_modulante ∧ s.porcentaje_valvula_modulante ≤ 100 ∧
  0 ≤ s.comando_supercalentador ∧ s.comando_supercalentador ≤ 100 ∧
  0 ≤ s.presion_simulada ∧ 0 ≤ s.temperatura_simulada

lemma valvulaEsd_mem (p : ℚ) : 0 ≤ valvulaEsd p ∧ valvulaEsd p ≤ 100 := by
  unfold valvulaEsd; split_ifs <;> norm_num

lemma supercalentadorEsd_mem (t : ℚ) :
    0 ≤ supercalentadorEsd t ∧ supercalentadorEsd t ≤ 100 := by
  unfold supercalentadorEsd; split_ifs <;> norm_num

lemma valvulaNormal_mem (s : Estado) (e : Entrada)
    (h0 : 0 ≤ s.porcentaje_valvula_modulante) (h1 : s.porcentaje_valvula_modulante ≤ 100) :
    0 ≤ valvulaNormal s e ∧ valvulaNormal s e ≤ 100 := by
  unfold valvulaNormal forzarValvula ajusteValvula clamp
    VALVULA_MODULANTE_MIN VALVULA_MODULANTE_MAX
  split_ifs
  · norm_num
  · exact ⟨le_max_left _ _, max_le (by norm_num) (min_le_left _ _)⟩
  · exact ⟨h0, h1⟩

lemma supercalNormal_mem (s : Estado) (e : Entrada)
    (h0 : 0 ≤ s.comando_supercalentador) (h1 : s.comando_supercalentador ≤ 100) :
    0 ≤ supercalNormal s e ∧ supercalNormal s e ≤ 100 := by
  unfold supercalNormal forzarSupercalentador ajusteSupercalentador clamp
    SUPERCALENTADOR_MIN SUPERCALENTADOR_MAX
  split_ifs
  · norm_num
  · exact ⟨le_max_left _ _, max_le (by norm_num) (min_le_left _ _)⟩
  · exact ⟨h0, h1⟩

lemma estadoValido_tick (s : Estado) (e : Entrada) (hv : EstadoValido s) :
    EstadoValido (tick s e) := by
  obtain ⟨hv1, hv2, hv3, hv4, hv5, hv6⟩ := hv
  by_cases hst : e.tiempo < duracion_standby
  · rw [tick_standby hst]
    exact ⟨hv1, hv2, hv3, hv4, hv5, hv6⟩
  · rw [tick_cuerpo hst]
    set s0 : Estado := {s with ultimo_tiempo_actualizacion := e.tiempo} with hs0def
    set dt : ℚ := (e.tiempo - s.ultimo_tiempo_actualizacion) / 2 with hdtdef
    unfold EstadoValido
    simp only [registrarLog_valvula, registrarLog_supercalentador,
      registrarLog_presion, registrarLog_temperatura]
    unfold cuerpoTick
    by_cases hb : (pasoBotonEsd s0 e.boton_esd).esd_activo = false
    · rw [if_pos hb]
      unfold trasNormal
      by_cases hX : (pasoNormal (pasoBotonEsd s0 e.boton_esd) e dt).esd_activo = true
      · rw [if_pos hX]
        exact ⟨(valvulaEsd_mem _).1, (valvulaEsd_mem _).2,
               (supercalentadorEsd_mem _).1, (supercalentadorEsd_mem _).2,
               le_max_right _ _, le_max_right _ _⟩
      · rw [if_neg hX]
        unfold pasoNormal
        by_cases htrip : (pasoBotonEsd s0 e.boton_esd).presion_simulada
            ≥ PRESION_EMERGENCIA_ALTA
          ∨ (pasoBotonEsd s0 e.boton_esd).temperatura_simulada
            ≥ TEMPERATURA_EMERGENCIA_ALTA
        · rw [if_pos htrip]
          exact ⟨by simpa using hv1, by simpa using hv2, by simpa using hv3,
                 by simpa using hv4, by simpa using hv5, by simpa using hv6⟩
        · rw [if_neg htrip]
          refine ⟨?_, ?_, ?_, ?_, ?_, ?_⟩
          · exact (valvulaNormal_mem _ e (by simpa using hv1) (by simpa using hv2)).1
          · exact (valvulaNormal_mem _ e (by simpa using hv1) (by simpa using hv2)).2
          · exact (supercalNormal_mem _ e (by simpa using hv3) (by simpa using hv4)).1
          · exact (supercalNormal_mem _ e (by simpa using hv3) (by simpa using hv4)).2
          · exact le_max_right _ _
          · exact le_max_right _ _
    · rw [if_neg hb]
      exact ⟨(valvulaEsd_mem _).1, (valvulaEsd_mem _).2,
             (supercalentadorEsd_mem _).1, (supercalentadorEsd_mem _).2,
             le_max_right _ _, le_max_right _ _⟩

@[simp] lemma trasNormal_recuperacion (s : Estado) (dt : ℚ) :
    (trasNormal s dt).recuperacion_presion_activa = s.recuperacion_presion_activa := by
  unfold trasNormal; split_ifs <;> simp

@[simp] lemma trasNormal_precalentamiento (s : Estado) (dt : ℚ) :
    (trasNormal s dt).precalentamiento_activo = s.precalentamiento_activo := by
  unfold trasNormal; split_ifs <;> simp

@[simp] lemma trasNormal_esd (s : Estado) (dt : ℚ) :
    (trasNormal s dt).esd_activo = s.esd_activo := by
  unfold trasNormal; split_ifs <;> simp

@[simp] lemma trasNormal_estado_flujo (s : Estado) (dt : ℚ) :
    (trasNormal s dt).estado_flujo = s.estado_flujo := by
  unfold trasNormal; split_ifs <;> simp

@[simp] lemma trasNormal_ultima_posicion (s : Estado) (dt : ℚ) :
    (trasNormal s dt).ultima_posicion_encoder = s.ultima_posicion_encoder := by
  unfold trasNormal; split_ifs <;> simp

@[simp] lemma trasNormal_modo (s : Estado) (dt : ℚ) :
    (trasNormal s dt).modo_actual = s.modo_actual := by
  unfold trasNormal; split_ifs <;> simp

/-- On every tick, each latch either carries over unchanged (standby, a trip,
or an ESD tick) or is the hysteresis re-evaluation of the previous value at
the pre-physics process value. -/
lemma tick_recuperacion (s : Estado) (e : Entrada) :
    (tick s e).recuperacion_presion_activa = s.recuperacion_presion_activa ∨
    (tick s e).recuperacion_presion_activa
      = evalRecuperacion s.recuperacion_presion_activa s.presion_simulada := by
  by_cases hst : e.tiempo < duracion_standby
  · left; rw [tick_standby hst]
  · rw [tick_cuerpo hst]
    simp only [registrarLog_recuperacion]
    unfold cuerpoTick
    by_cases hb : (pasoBotonEsd {s with ultimo_tiempo_actualizacion := e.tiempo}
        e.boton_esd).esd_activo = false
    · rw [if_pos hb]
      simp only [trasNormal_recuperacion]
      unfold pasoNormal
      by_cases htrip : (pasoBotonEsd {s with ultimo_tiempo_actualizacion := e.tiempo}
            e.boton_esd).presion_simulada ≥ PRESION_EMERGENCIA_ALTA
          ∨ (pasoBotonEsd {s with ultimo_tiempo_actualizacion := e.tiempo}
            e.boton_esd).temperatura_simulada ≥ TEMPERATURA_EMERGENCIA_ALTA
      · rw [if_pos htrip]; left; simp
      · rw [if_neg htrip]; right
        show recupTras (pasoBotonEsd {s with ultimo_tiempo_actualizacion := e.tiempo}
          e.boton_esd) = _
        unfold recupTras; simp
    · rw [if_neg hb]; left; simp

/-- Preheat analogue of `tick_recuperacion`. -/
lemma tick_precalentamiento (s : Estado) (e : Entrada) :
    (tick s e).precalentamiento_activo = s.precalentamiento_activo ∨
    (tick s e).precalentamiento_activo
      = evalPrecalentamiento s.precalentamiento_activo s.temperatura_simulada := by
  by_cases hst : e.tiempo < duracion_standby
  · left; rw [tick_standby hst]
  · rw [tick_cuerpo hst]
    simp only [registrarLog_precalentamiento]
    unfold cuerpoTick
    by_cases hb : (pasoBotonEsd {s with ultimo_tiempo_actualizacion := e.tiempo}
        e.boton_esd).esd_activo = false
    · rw [if_pos hb]
      simp only [trasNormal_precalentamiento]
      unfold pasoNormal
      by_cases htrip : (pasoBotonEsd {s with ultimo_tiempo_actualizacion := e.tiempo}
            e.boton_esd).presion_simulada ≥ PRESION_EMERGENCIA_ALTA
          ∨ (pasoBotonEsd {s with ultimo_tiempo_actualizacion := e.tiempo}
            e.boton_esd).temperatura_simulada ≥ TEMPERATURA_EMERGENCIA_ALTA
      · rw [if_pos htrip]; left; simp
      · rw [if_neg htrip]; right
        show precalTras (pasoBotonEsd {s with ultimo_tiempo_actualizacion := e.tiempo}
          e.boton_esd) = _
        unfold precalTras; simp
    · rw [if_neg hb]; left; simp

/-! Claim theorems. -/

/-- C9: after every tick from the initial state, under every input sequence,
`porcentaje_valvula_modulante` and `comando_supercalentador` lie in [0,100]
and the simulated pressure and temperature are nonnegative: every mutation
path (manual adjustment, override forcing, ESD control law, process model)
preserves these bounds. -/
theorem claim_C9 (l : List Entrada) : EstadoValido (List.foldl tick estadoInicial l) := by
  suffices hgen : ∀ (l : List Entrada) (s0 : Estado),
      EstadoValido s0 → EstadoValido (List.foldl tick s0 l) by
    refine hgen l estadoInicial ?_
    unfold EstadoValido estadoInicial
    norm_num [PRESION_INICIAL, TEMPERATURA_INICIAL]
  intro l
  induction l with
  | nil => intro s0 h0; simpa using h0
  | cons a t ih => intro s0 h0; exact ih (tick s0 a) (estadoValido_tick s0 a h0)

/-- C8: the override latches never chatter.  If `recuperacion_presion_activa`
is set and the observed pressure is still at most 240 (= 220 + 20) the latch
is still set after the tick, and if `precalentamiento_activo` is set and the
observed temperature is at most 130 (= 110 + 20) it is still set after the
tick; in particular re-crossing the entry threshold from above while active
never clears a latch. -/
theorem claim_C8 (s : Estado) (e : Entrada) :
    (s.recuperacion_presion_activa = true →
      s.presion_simulada ≤ PRESION_RECUPERACION + 20 →
      (tick s e).recuperacion_presion_activa = true) ∧
    (s.precalentamiento_activo = true →
      s.temperatura_simulada ≤ TEMPERATURA_PRECALENTAMIENTO + 20 →
      (tick s e).precalentamiento_activo = true) := by
  constructor
  · intro ha hle
    rcases tick_recuperacion s e with h | h
    · rw [h, ha]
    · rw [h]; exact evalRecuperacion_persiste ha hle
  · intro ha hle
    rcases tick_precalentamiento s e with h | h
    · rw [h, ha]
    · rw [h]; exact evalPrecalentamiento_persiste ha hle

/-- Concrete state with both latches set and both process values inside the
hysteresis bands, used to witness C8. -/
def estadoW8 : Estado :=
  {estadoInicial with recuperacion_presion_activa := true,
                      precalentamiento_activo := true,
                      presion_simulada := 230, temperatura_simulada := 120}

/-- Entrada for the C8 witness. -/
def entradaW8 : Entrada := ⟨10, true, true, 0⟩

/-- Witness for C8 at a concrete latched state. -/
theorem witness_C8 :
    (tick estadoW8 entradaW8).recuperacion_presion_activa = true ∧
    (tick estadoW8 entradaW8).precalentamiento_activo = true :=
  ⟨(claim_C8 estadoW8 entradaW8).1 (by decide)
      (by norm_num [estadoW8, estadoInicial, PRESION_RECUPERACION]),
   (claim_C8 estadoW8 entradaW8).2 (by decide)
      (by norm_num [estadoW8, estadoInicial, TEMPERATURA_PRECALENTAMIENTO])⟩

/-- C7: on a tick taken in ESD state Active, the state becomes ReadyForReset
exactly when both `|presion - 300| <= 5` and `|temperatura - 150| <= 3` hold
in that tick — the values being those at the convergence check, i.e. after
the same tick's accelerated ESD correction and before the trailing process
model; partial convergence never causes the transition. -/
theorem claim_C7 (s : Estado) (e : Entrada) (ht : duracion_standby ≤ e.tiempo)
    (hA : Active s) :
    ((tick s e).esd_listo_para_reinicio = true ↔
      |presionTrasLeyEsd s.presion_simulada
          ((e.tiempo - s.ultimo_tiempo_actualizacion) / 2) - PRESION_INICIAL|
        ≤ TOLERANCIA_PRESION_ESD ∧
      |temperaturaTrasLeyEsd s.temperatura_simulada
          ((e.tiempo - s.ultimo_tiempo_actualizacion) / 2) - TEMPERATURA_INICIAL|
        ≤ TOLERANCIA_TEMPERATURA_ESD) := by
  obtain ⟨hesd, hlisto⟩ := hA
  have hst : ¬ e.tiempo < duracion_standby := not_lt.mpr ht
  rw [tick_cuerpo hst]
  unfold cuerpoTick
  have hs1 : pasoBotonEsd {s with ultimo_tiempo_actualizacion := e.tiempo} e.boton_esd
      = {{s with ultimo_tiempo_actualizacion := e.tiempo} with
          ultimo_estado_boton_esd := e.boton_esd} := by
    by_cases hf : flancoBajada ({s with ultimo_tiempo_actualizacion := e.tiempo} :
        Estado).ultimo_estado_boton_esd e.boton_esd = true
    · exact pasoBotonEsd_ignora hf (by simpa using hesd) (by simpa using hlisto)
    · have hff : flancoBajada ({s with ultimo_tiempo_actualizacion := e.tiempo} :
          Estado).ultimo_estado_boton_esd e.boton_esd = false := by
        revert hf
        cases h : flancoBajada ({s with ultimo_tiempo_actualizacion := e.tiempo} :
          Estado).ultimo_estado_boton_esd e.boton_esd <;> simp
      exact pasoBotonEsd_sin_flanco hff
  rw [hs1]
  rw [if_neg (by simp [hesd])]
  rw [registrarLog_listo, pasoEsd_listo]
  rw [hlisto]
  split_ifs with hc
  · simpa using hc
  · constructor
    · intro hfalse; exact absurd hfalse (by simp)
    · intro hrhs; exact absurd (by simpa using hrhs) hc

/-- Concrete Active state at nominal process values, used to witness C7. -/
def estadoW7 : Estado := {estadoInicial with esd_activo := true}

/-- Entrada for the C7 witness. -/
def entradaW7 : Entrada := ⟨10, true, true, 0⟩

/-- Witness for C7: from Active at nominal values the tick converges. -/
theorem witness_C7 :
    Active estadoW7 ∧ (tick estadoW7 entradaW7).esd_listo_para_reinicio = true :=
  ⟨by decide,
   (claim_C7 estadoW7 entradaW7
      (by norm_num [duracion_standby, entradaW7]) (by decide)).mpr
      (by norm_num [estadoW7, estadoInicial, entradaW7, presionTrasLeyEsd,
        temperaturaTrasLeyEsd, PRESION_INICIAL, TEMPERATURA_INICIAL,
        TOLERANCIA_PRESION_ESD, TOLERANCIA_TEMPERATURA_ESD])⟩

/-- C10: a tick that ends with the sequencer Running has both safety valves
de-asserted and reports them off in telemetry — only the ESD branch can ever
assert the relief or purge valve. -/
theorem claim_C10 (s : Estado) (e : Entrada) (ht : duracion_standby ≤ e.tiempo)
    (h : (tick s e).esd_activo = false) :
    (tick s e).valvula_alivio = false ∧ (tick s e).sistema_purga_a = false ∧
    (tick s e).estado_alivio = false ∧ (tick s e).estado_purga = false ∧
    (registro (tick s e)).relief = false ∧ (registro (tick s e)).purge = false := by
  have hst : ¬ e.tiempo < duracion_standby := not_lt.mpr ht
  rw [tick_cuerpo hst] at h ⊢
  unfold cuerpoTick at h ⊢
  by_cases hb : (pasoBotonEsd {s with ultimo_tiempo_actualizacion := e.tiempo}
      e.boton_esd).esd_activo = false
  · rw [if_pos hb] at h ⊢
    unfold trasNormal at h ⊢
    by_cases hX : (pasoNormal (pasoBotonEsd {s with ultimo_tiempo_actualizacion := e.tiempo}
        e.boton_esd) e ((e.tiempo - s.ultimo_tiempo_actualizacion) / 2)).esd_activo = true
    · rw [if_pos hX] at h
      rw [registrarLog_esd, pasoEsd_esd_activo] at h
      exact absurd hX (by simp [h])
    · rw [if_neg hX] at h ⊢
      unfold pasoNormal at h ⊢
      by_cases htrip : (pasoBotonEsd {s with ultimo_tiempo_actualizacion := e.tiempo}
            e.boton_esd).presion_simulada ≥ PRESION_EMERGENCIA_ALTA
          ∨ (pasoBotonEsd {s with ultimo_tiempo_actualizacion := e.tiempo}
            e.boton_esd).temperatura_simulada ≥ TEMPERATURA_EMERGENCIA_ALTA
      · rw [if_pos htrip] at h
        rw [registrarLog_esd] at h
        simp at h
      · rw [if_neg htrip]
        refine ⟨?_, ?_, ?_, ?_, ?_, ?_⟩ <;> simp [registro]
  · rw [if_neg hb] at h
    rw [registrarLog_esd, pasoEsd_esd_activo] at h
    exact absurd h hb

/-- C1 counterexample drive: open the valve wide so the pressure falls into
the recovery band, let the recovery latch close the valve, then a long tick
gap makes the process model overshoot past the 460 kPa trip threshold while
the latch is still set. -/
def entradaC1a : Entrada := ⟨10, true, true, 13⟩

/-- Second tick of the C1 drive. -/
def entradaC1b : Entrada := ⟨30, true, true, 13⟩

/-- Third tick of the C1 drive. -/
def entradaC1c : Entrada := ⟨110, true, true, 13⟩

/-- Fourth tick of the C1 drive (enters recovery, then overshoots to 462). -/
def entradaC1d : Entrada := ⟨232, true, true, 13⟩

/-- The trip tick of the C1 counterexample. -/
def entradaC1e : Entrada := ⟨233, true, true, 13⟩

/-- Reachable Running state with `presion = 462` and the recovery latch set. -/
def estadoAntesC1 : Estado :=
  tick (tick (tick (tick estadoInicial entradaC1a) entradaC1b) entradaC1c) entradaC1d

/-- cex_C1: the claim "on a trip tick both SafetyOverride latches become
inactive" is false.  From the initial state, four ticks reach a Running state
with `presion = 462 >= 460` and `recuperacion_presion_activa` still true; the
next tick trips to Active but leaves the latch set. -/
theorem cex_C1 :
    Running estadoAntesC1 ∧
    estadoAntesC1.presion_simulada ≥ PRESION_EMERGENCIA_ALTA ∧
    Active (tick estadoAntesC1 entradaC1e) ∧
    (tick estadoAntesC1 entradaC1e).recuperacion_presion_activa = true := by
  norm_num [Running, Active, estadoAntesC1, entradaC1a, entradaC1b, entradaC1c, entradaC1d,
    entradaC1e, tick, cuerpoTick, registrarLog, trasNormal, pasoBotonEsd,
    pasoNormal, pasoEsd, flancoBajada, recupTras, precalTras, evalRecuperacion,
    evalPrecalentamiento, deltaPosicion, ajusteValvula, ajusteSupercalentador,
    forzarValvula, forzarSupercalentador, valvulaNormal, supercalNormal,
    fisicaPresion, fisicaTemperatura, presionNormal, temperaturaNormal,
    cambioBotonEncoder, toggleModo, clasificarFlujo, ledDeFlujo, flujoNormal,
    valvulaEsd, alivioEsd, supercalentadorEsd, purgaEsd, presionTrasLeyEsd,
    temperaturaTrasLeyEsd, fisicaPresionEsd, fisicaTemperaturaEsd, clamp,
    estadoInicial, duracion_standby, PRESION_INICIAL, TEMPERATURA_INICIAL,
    PRESION_EMERGENCIA_ALTA, TEMPERATURA_EMERGENCIA_ALTA, PRESION_RECUPERACION,
    TEMPERATURA_PRECALENTAMIENTO, TOLERANCIA_PRESION_ESD,
    TOLERANCIA_TEMPERATURA_ESD, VALVULA_MODULANTE_MIN, VALVULA_MODULANTE_MAX,
    SUPERCALENTADOR_MIN, SUPERCALENTADOR_MAX, SENSIBILIDAD_ENCODER_PRESION,
    SENSIBILIDAD_ENCODER_TEMPERATURA, TIEMPO_DEBOUNCE_MS,
    decide_eq_true_eq, decide_eq_false_iff_not, abs_le, lt_abs]

/-- C1 (amended): on a Running tick that observes `presion >= 460` or
`temperatura >= 190`, `esd_activo` is set after the tick (the sequencer
leaves Running), but the two SafetyOverride latch variables keep their prior
values — they are not cleared, merely ignored while ESD is active. -/
theorem claim_C1 (s : Estado) (e : Entrada) (ht : duracion_standby ≤ e.tiempo)
    (_hR : Running s)
    (hcond : s.presion_simulada ≥ PRESION_EMERGENCIA_ALTA
      ∨ s.temperatura_simulada ≥ TEMPERATURA_EMERGENCIA_ALTA) :
    (tick s e).esd_activo = true ∧
    (tick s e).recuperacion_presion_activa = s.recuperacion_presion_activa ∧
    (tick s e).precalentamiento_activo = s.precalentamiento_activo := by
  have hst : ¬ e.tiempo < duracion_standby := not_lt.mpr ht
  rw [tick_cuerpo hst]
  unfold cuerpoTick
  by_cases hb : (pasoBotonEsd {s with ultimo_tiempo_actualizacion := e.tiempo}
      e.boton_esd).esd_activo = false
  · rw [if_pos hb]
    unfold trasNormal
    have htrip : (pasoBotonEsd {s with ultimo_tiempo_actualizacion := e.tiempo}
          e.boton_esd).presion_simulada ≥ PRESION_EMERGENCIA_ALTA
        ∨ (pasoBotonEsd {s with ultimo_tiempo_actualizacion := e.tiempo}
          e.boton_esd).temperatura_simulada ≥ TEMPERATURA_EMERGENCIA_ALTA := by
      simpa using hcond
    unfold pasoNormal
    rw [if_pos htrip]
    rw [if_pos (by simp)]
    exact ⟨by simp, by simp, by simp⟩
  · rw [if_neg hb]
    have hbt : (pasoBotonEsd {s with ultimo_tiempo_actualizacion := e.tiempo}
        e.boton_esd).esd_activo = true := by
      revert hb
      cases h : (pasoBotonEsd {s with ultimo_tiempo_actualizacion := e.tiempo}
        e.boton_esd).esd_activo <;> simp
    exact ⟨by simp [hbt], by simp, by simp⟩

/-- Witness for the amended C1, at the counterexample's concrete trip tick. -/
theorem witness_C1 :
    (tick estadoAntesC1 entradaC1e).esd_activo = true ∧
    (tick estadoAntesC1 entradaC1e).recuperacion_presion_activa
      = estadoAntesC1.recuperacion_presion_activa ∧
    (tick estadoAntesC1 entradaC1e).precalentamiento_activo
      = estadoAntesC1.precalentamiento_activo :=
  claim_C1 estadoAntesC1 entradaC1e
    (by norm_num [duracion_standby, entradaC1e])
    (by norm_num [estadoAntesC1, entradaC1a, entradaC1b, entradaC1c, entradaC1d,
      tick, cuerpoTick, registrarLog, trasNormal, pasoBotonEsd, pasoNormal,
      pasoEsd, flancoBajada, recupTras, precalTras, evalRecuperacion,
      evalPrecalentamiento, deltaPosicion, ajusteValvula, ajusteSupercalentador,
      forzarValvula, forzarSupercalentador, valvulaNormal, supercalNormal,
      fisicaPresion, fisicaTemperatura, presionNormal, temperaturaNormal,
      cambioBotonEncoder, toggleModo, clasificarFlujo, ledDeFlujo, flujoNormal,
      valvulaEsd, alivioEsd, supercalentadorEsd, purgaEsd, presionTrasLeyEsd,
      temperaturaTrasLeyEsd, fisicaPresionEsd, fisicaTemperaturaEsd, clamp,
      estadoInicial, duracion_standby, PRESION_INICIAL, TEMPERATURA_INICIAL,
      PRESION_EMERGENCIA_ALTA, TEMPERATURA_EMERGENCIA_ALTA, PRESION_RECUPERACION,
      TEMPERATURA_PRECALENTAMIENTO, TOLERANCIA_PRESION_ESD,
      TOLERANCIA_TEMPERATURA_ESD, VALVULA_MODULANTE_MIN, VALVULA_MODULANTE_MAX,
      SUPERCALENTADOR_MIN, SUPERCALENTADOR_MAX, SENSIBILIDAD_ENCODER_PRESION,
      SENSIBILIDAD_ENCODER_TEMPERATURA, TIEMPO_DEBOUNCE_MS,
      decide_eq_true_eq, decide_eq_false_iff_not])
    (by norm_num [estadoAntesC1, entradaC1a, entradaC1b, entradaC1c, entradaC1d,
      tick, cuerpoTick, registrarLog, trasNormal, pasoBotonEsd, pasoNormal,
      pasoEsd, flancoBajada, recupTras, precalTras, evalRecuperacion,
      evalPrecalentamiento, deltaPosicion, ajusteValvula, ajusteSupercalentador,
      forzarValvula, forzarSupercalentador, valvulaNormal, supercalNormal,
      fisicaPresion, fisicaTemperatura, presionNormal, temperaturaNormal,
      cambioBotonEncoder, toggleModo, clasificarFlujo, ledDeFlujo, flujoNormal,
      valvulaEsd, alivioEsd, supercalentadorEsd, purgaEsd, presionTrasLeyEsd,
      temperaturaTrasLeyEsd, fisicaPresionEsd, fisicaTemperaturaEsd, clamp,
      estadoInicial, duracion_standby, PRESION_INICIAL, TEMPERATURA_INICIAL,
      PRESION_EMERGENCIA_ALTA, TEMPERATURA_EMERGENCIA_ALTA, PRESION_RECUPERACION,
      TEMPERATURA_PRECALENTAMIENTO, TOLERANCIA_PRESION_ESD,
      TOLERANCIA_TEMPERATURA_ESD, VALVULA_MODULANTE_MIN, VALVULA_MODULANTE_MAX,
      SUPERCALENTADOR_MIN, SUPERCALENTADOR_MAX, SENSIBILIDAD_ENCODER_PRESION,
      SENSIBILIDAD_ENCODER_TEMPERATURA, TIEMPO_DEBOUNCE_MS,
      decide_eq_true_eq, decide_eq_false_iff_not])

/-- C2: in every reachable ReadyForReset state, a tick without an ESD-button
falling edge leaves the ESD state unchanged, and the tick with the falling
edge returns the sequencer to Running with both SafetyOverride latches
inactive afterwards.  (Reachability supplies the convergence invariant: a
ReadyForReset state holds both process values inside tolerance, so the reset
tick cannot re-trip and the hysteresis exits clear both latches.) -/
theorem claim_C2 (s : Estado) (e : Entrada) (ha : Alcanzable s)
    (hr : ReadyForReset s) (ht : duracion_standby ≤ e.tiempo) :
    (flancoBajada s.ultimo_estado_boton_esd e.boton_esd = false →
      (tick s e).esd_activo = true ∧ (tick s e).esd_listo_para_reinicio = true) ∧
    (flancoBajada s.ultimo_estado_boton_esd e.boton_esd = true →
      (tick s e).esd_activo = false ∧
      (tick s e).recuperacion_presion_activa = false ∧
      (tick s e).precalentamiento_activo = false) := by
  obtain ⟨hesd, hlisto⟩ := hr
  obtain ⟨hp, htmp⟩ := alcanzable_toleranciaListo ha hesd hlisto
  have hst : ¬ e.tiempo < duracion_standby := not_lt.mpr ht
  have hple : s.presion_simulada ≤ 305 := by
    have := abs_le.mp hp
    unfold PRESION_INICIAL TOLERANCIA_PRESION_ESD at this
    linarith [this.2]
  have hpge : 295 ≤ s.presion_simulada := by
    have := abs_le.mp hp
    unfold PRESION_INICIAL TOLERANCIA_PRESION_ESD at this
    linarith [this.1]
  have htle : s.temperatura_simulada ≤ 153 := by
    have := abs_le.mp htmp
    unfold TEMPERATURA_INICIAL TOLERANCIA_TEMPERATURA_ESD at this
    linarith [this.2]
  have htge : 147 ≤ s.temperatura_simulada := by
    have := abs_le.mp htmp
    unfold TEMPERATURA_INICIAL TOLERANCIA_TEMPERATURA_ESD at this
    linarith [this.1]
  constructor
  · intro hf
    rw [tick_cuerpo hst]
    unfold cuerpoTick
    rw [pasoBotonEsd_sin_flanco (by simpa using hf)]
    rw [if_neg (by simp [hesd])]
    constructor
    · simp [hesd]
    · rw [registrarLog_listo, pasoEsd_listo]
      split_ifs with hc
      · rfl
      · simpa using hlisto
  · intro hf
    rw [tick_cuerpo hst]
    unfold cuerpoTick
    rw [pasoBotonEsd_reinicia (by simpa using hf) (by simpa using hesd)
      (by simpa using hlisto)]
    set A : Estado := ({s with ultimo_tiempo_actualizacion := e.tiempo, esd_activo := false, ultimo_estado_boton_esd := e.boton_esd} : Estado) with hAdef
    have hnotrip : ¬ (A.presion_simulada ≥ PRESION_EMERGENCIA_ALTA
        ∨ A.temperatura_simulada ≥ TEMPERATURA_EMERGENCIA_ALTA) := by
      rintro (hc | hc)
      · have hcs : s.presion_simulada ≥ PRESION_EMERGENCIA_ALTA := hc
        unfold PRESION_EMERGENCIA_ALTA at hcs; linarith
      · have hcs : s.temperatura_simulada ≥ TEMPERATURA_EMERGENCIA_ALTA := hc
        unfold TEMPERATURA_EMERGENCIA_ALTA at hcs; linarith
    rw [if_pos (by simp [hAdef])]
    unfold trasNormal
    have hesd2 : (pasoNormal A e ((e.tiempo - s.ultimo_tiempo_actualizacion) / 2)).esd_activo
        = false := by
      rw [pasoNormal_sin_disparo_esd hnotrip, hAdef]
    rw [if_neg (by simp [hesd2])]
    refine ⟨?_, ?_, ?_⟩
    · rw [registrarLog_esd]; exact hesd2
    · rw [registrarLog_recuperacion, pasoNormal_sin_disparo_recuperacion hnotrip]
      unfold recupTras
      exact evalRecuperacion_alta
        (show PRESION_RECUPERACION + 20 < A.presion_simulada by
          show PRESION_RECUPERACION + 20 < s.presion_simulada
          unfold PRESION_RECUPERACION; linarith)
    · rw [registrarLog_precalentamiento, pasoNormal_sin_disparo_precalentamiento hnotrip]
      unfold precalTras
      exact evalPrecalentamiento_alta
        (show TEMPERATURA_PRECALENTAMIENTO + 20 < A.temperatura_simulada by
          show TEMPERATURA_PRECALENTAMIENTO + 20 < s.temperatura_simulada
          unfold TEMPERATURA_PRECALENTAMIENTO; linarith)

/-- First tick of the C2 witness run: manual ESD trip, which converges in the
same tick at nominal values. -/
def entradaW2a : Entrada := ⟨10, false, true, 0⟩

/-- Second tick of the C2 witness run: the button is released. -/
def entradaW2b : Entrada := ⟨20, true, true, 0⟩

/-- Reachable ReadyForReset state used to witness C2. -/
def estadoW2 : Estado := tick (tick estadoInicial entradaW2a) entradaW2b

/-- The reset tick of the C2 witness. -/
def entradaW2c : Entrada := ⟨30, false, true, 0⟩

/-- Witness for C2 at the concrete reachable ReadyForReset state. -/
theorem witness_C2 :
    (tick estadoW2 entradaW2c).esd_activo = false ∧
    (tick estadoW2 entradaW2c).recuperacion_presion_activa = false ∧
    (tick estadoW2 entradaW2c).precalentamiento_activo = false :=
  (claim_C2 estadoW2 entradaW2c ⟨[entradaW2a, entradaW2b], rfl⟩
    (by norm_num [estadoW2, entradaW2a, entradaW2b, tick, cuerpoTick,
      registrarLog, trasNormal, pasoBotonEsd, pasoNormal, pasoEsd, flancoBajada,
      recupTras, precalTras, evalRecuperacion, evalPrecalentamiento,
      deltaPosicion, ajusteValvula, ajusteSupercalentador, forzarValvula,
      forzarSupercalentador, valvulaNormal, supercalNormal, fisicaPresion,
      fisicaTemperatura, presionNormal, temperaturaNormal, cambioBotonEncoder,
      toggleModo, clasificarFlujo, ledDeFlujo, flujoNormal, valvulaEsd,
      alivioEsd, supercalentadorEsd, purgaEsd, presionTrasLeyEsd,
      temperaturaTrasLeyEsd, fisicaPresionEsd, fisicaTemperaturaEsd, clamp,
      estadoInicial, duracion_standby, PRESION_INICIAL, TEMPERATURA_INICIAL,
      PRESION_EMERGENCIA_ALTA, TEMPERATURA_EMERGENCIA_ALTA, PRESION_RECUPERACION,
      TEMPERATURA_PRECALENTAMIENTO, TOLERANCIA_PRESION_ESD,
      TOLERANCIA_TEMPERATURA_ESD, VALVULA_MODULANTE_MIN, VALVULA_MODULANTE_MAX,
      SUPERCALENTADOR_MIN, SUPERCALENTADOR_MAX, SENSIBILIDAD_ENCODER_PRESION,
      SENSIBILIDAD_ENCODER_TEMPERATURA, TIEMPO_DEBOUNCE_MS,
      decide_eq_true_eq, decide_eq_false_iff_not])
    (by norm_num [duracion_standby, entradaW2c])).2
    (by norm_num [estadoW2, entradaW2a, entradaW2b, entradaW2c, tick, cuerpoTick,
      registrarLog, trasNormal, pasoBotonEsd, pasoNormal, pasoEsd, flancoBajada,
      recupTras, precalTras, evalRecuperacion, evalPrecalentamiento,
      deltaPosicion, ajusteValvula, ajusteSupercalentador, forzarValvula,
      forzarSupercalentador, valvulaNormal, supercalNormal, fisicaPresion,
      fisicaTemperatura, presionNormal, temperaturaNormal, cambioBotonEncoder,
      toggleModo, clasificarFlujo, ledDeFlujo, flujoNormal, valvulaEsd,
      alivioEsd, supercalentadorEsd, purgaEsd, presionTrasLeyEsd,
      temperaturaTrasLeyEsd, fisicaPresionEsd, fisicaTemperaturaEsd, clamp,
      estadoInicial, duracion_standby, PRESION_INICIAL, TEMPERATURA_INICIAL,
      PRESION_EMERGENCIA_ALTA, TEMPERATURA_EMERGENCIA_ALTA, PRESION_RECUPERACION,
      TEMPERATURA_PRECALENTAMIENTO, TOLERANCIA_PRESION_ESD,
      TOLERANCIA_TEMPERATURA_ESD, VALVULA_MODULANTE_MIN, VALVULA_MODULANTE_MAX,
      SUPERCALENTADOR_MIN, SUPERCALENTADOR_MAX, SENSIBILIDAD_ENCODER_PRESION,
      SENSIBILIDAD_ENCODER_TEMPERATURA, TIEMPO_DEBOUNCE_MS,
      decide_eq_true_eq, decide_eq_false_iff_not])

/-- Entrada for the C10 witness. -/
def entradaW10 : Entrada := ⟨10, true, true, 0⟩

/-- Witness for C10: a plain Running tick from the initial state keeps the
relief and purge valves off and reports them off. -/
theorem witness_C10 :
    (tick estadoInicial entradaW10).valvula_alivio = false ∧
    (tick estadoInicial entradaW10).sistema_purga_a = false ∧
    (tick estadoInicial entradaW10).estado_alivio = false ∧
    (tick estadoInicial entradaW10).estado_purga = false ∧
    (registro (tick estadoInicial entradaW10)).relief = false ∧
    (registro (tick estadoInicial entradaW10)).purge = false :=
  claim_C10 estadoInicial entradaW10 (by norm_num [duracion_standby, entradaW10])
    (by norm_num [tick, cuerpoTick, registrarLog, trasNormal, pasoBotonEsd,
      pasoNormal, pasoEsd, flancoBajada, recupTras, precalTras, evalRecuperacion,
      evalPrecalentamiento, deltaPosicion, ajusteValvula, ajusteSupercalentador,
      forzarValvula, forzarSupercalentador, valvulaNormal, supercalNormal,
      fisicaPresion, fisicaTemperatura, presionNormal, temperaturaNormal,
      cambioBotonEncoder, toggleModo, clasificarFlujo, ledDeFlujo, flujoNormal,
      valvulaEsd, alivioEsd, supercalentadorEsd, purgaEsd, presionTrasLeyEsd,
      temperaturaTrasLeyEsd, fisicaPresionEsd, fisicaTemperaturaEsd, clamp,
      estadoInicial, entradaW10, duracion_standby, PRESION_INICIAL,
      TEMPERATURA_INICIAL, PRESION_EMERGENCIA_ALTA, TEMPERATURA_EMERGENCIA_ALTA,
      PRESION_RECUPERACION, TEMPERATURA_PRECALENTAMIENTO, TOLERANCIA_PRESION_ESD,
      TOLERANCIA_TEMPERATURA_ESD, VALVULA_MODULANTE_MIN, VALVULA_MODULANTE_MAX,
      SUPERCALENTADOR_MIN, SUPERCALENTADOR_MAX, SENSIBILIDAD_ENCODER_PRESION,
      SENSIBILIDAD_ENCODER_TEMPERATURA, TIEMPO_DEBOUNCE_MS,
      decide_eq_true_eq, decide_eq_false_iff_not])

@[simp] lemma registro_f (s : Estado) : (registro s).f = s.estado_flujo := rfl

@[simp] lemma registro_relief (s : Estado) : (registro s).relief = s.estado_alivio := rfl

@[simp] lemma registro_purge (s : Estado) : (registro s).purge = s.estado_purga := rfl

/-- C3 counterexample drive: close the valve a little so the pressure rises
into regime A, then press the ESD button; the telemetry emitted on the ESD
tick still carries the stale `F:A`. -/
def entradaC3a : Entrada := ⟨10, true, true, -5⟩

/-- Second tick of the C3 drive (reaches regime A at `presion = 320`). -/
def entradaC3b : Entrada := ⟨40, true, true, -5⟩

/-- Reachable Running state classified in regime A. -/
def estadoAntesC3 : Estado := tick (tick estadoInicial entradaC3a) entradaC3b

/-- The manual-trip tick of the C3 counterexample. -/
def entradaC3c : Entrada := ⟨41, false, true, -5⟩

/-- cex_C3: the claim "every telemetry record emitted during an ESD tick
carries F:None" is false.  From a reachable state classified A, the manual
ESD trip tick emits a record whose flow field is still A: the code never
resets `estado_flujo` in the ESD branch. -/
theorem cex_C3 :
    estadoAntesC3.estado_flujo = Flujo.A ∧
    (tick estadoAntesC3 entradaC3c).esd_activo = true ∧
    salidaTelemetria estadoAntesC3 entradaC3c
      = Option.some (registro (tick estadoAntesC3 entradaC3c)) ∧
    (registro (tick estadoAntesC3 entradaC3c)).f = Flujo.A := by
  norm_num [estadoAntesC3, entradaC3a, entradaC3b, entradaC3c, salidaTelemetria,
    registro, tick, cuerpoTick, registrarLog, trasNormal, pasoBotonEsd,
    pasoNormal, pasoEsd, flancoBajada, recupTras, precalTras, evalRecuperacion,
    evalPrecalentamiento, deltaPosicion, ajusteValvula, ajusteSupercalentador,
    forzarValvula, forzarSupercalentador, valvulaNormal, supercalNormal,
    fisicaPresion, fisicaTemperatura, presionNormal, temperaturaNormal,
    cambioBotonEncoder, toggleModo, clasificarFlujo, ledDeFlujo, flujoNormal,
    valvulaEsd, alivioEsd, supercalentadorEsd, purgaEsd, presionTrasLeyEsd,
    temperaturaTrasLeyEsd, fisicaPresionEsd, fisicaTemperaturaEsd, clamp,
    estadoInicial, duracion_standby, PRESION_INICIAL, TEMPERATURA_INICIAL,
    PRESION_EMERGENCIA_ALTA, TEMPERATURA_EMERGENCIA_ALTA, PRESION_RECUPERACION,
    TEMPERATURA_PRECALENTAMIENTO, TOLERANCIA_PRESION_ESD,
    TOLERANCIA_TEMPERATURA_ESD, VALVULA_MODULANTE_MIN, VALVULA_MODULANTE_MAX,
    SUPERCALENTADOR_MIN, SUPERCALENTADOR_MAX, SENSIBILIDAD_ENCODER_PRESION,
    SENSIBILIDAD_ENCODER_TEMPERATURA, TIEMPO_DEBOUNCE_MS,
    decide_eq_true_eq, decide_eq_false_iff_not, abs_le, lt_abs]

/-- C3 (amended): the flow indicator LED is off on every ESD tick and on
every Running tick with an override active the stored classification (and
hence the telemetry field) is None; but on ESD ticks `estado_flujo` is simply
carried over from the last normal tick, so the telemetry F field can still
read A or B. -/
theorem claim_C3 (s : Estado) (e : Entrada) (ht : duracion_standby ≤ e.tiempo) :
    ((tick s e).esd_activo = true →
      (tick s e).led_flujo = false ∧ (tick s e).estado_flujo = s.estado_flujo ∧
      (registro (tick s e)).f = s.estado_flujo) ∧
    ((tick s e).esd_activo = false →
      ((tick s e).recuperacion_presion_activa = true ∨
        (tick s e).precalentamiento_activo = true) →
      (tick s e).estado_flujo = Flujo.none ∧ (tick s e).led_flujo = false ∧
      (registro (tick s e)).f = Flujo.none) := by
  have hst : ¬ e.tiempo < duracion_standby := not_lt.mpr ht
  rw [tick_cuerpo hst]
  unfold cuerpoTick
  by_cases hb : (pasoBotonEsd {s with ultimo_tiempo_actualizacion := e.tiempo}
      e.boton_esd).esd_activo = false
  · rw [if_pos hb]
    unfold trasNormal
    by_cases htrip : (pasoBotonEsd {s with ultimo_tiempo_actualizacion := e.tiempo}
          e.boton_esd).presion_simulada ≥ PRESION_EMERGENCIA_ALTA
        ∨ (pasoBotonEsd {s with ultimo_tiempo_actualizacion := e.tiempo}
          e.boton_esd).temperatura_simulada ≥ TEMPERATURA_EMERGENCIA_ALTA
    · rw [if_pos (pasoNormal_disparo_esd htrip)]
      constructor
      · intro _
        refine ⟨by simp, ?_, ?_⟩
        · rw [registrarLog_estado_flujo, pasoEsd_estado_flujo,
            pasoNormal_disparo_estado_flujo htrip]
          simp
        · rw [registro_f, registrarLog_estado_flujo, pasoEsd_estado_flujo,
            pasoNormal_disparo_estado_flujo htrip]
          simp
      · intro hesd _
        exfalso
        rw [registrarLog_esd, pasoEsd_esd_activo, pasoNormal_disparo_esd htrip] at hesd
        simp at hesd
    · have hXesd : (pasoNormal (pasoBotonEsd {s with ultimo_tiempo_actualizacion := e.tiempo}
          e.boton_esd) e ((e.tiempo - s.ultimo_tiempo_actualizacion) / 2)).esd_activo
          = false := by
        rw [pasoNormal_sin_disparo_esd htrip]; exact hb
      rw [if_neg (by simp [hXesd])]
      constructor
      · intro hesd
        exfalso
        rw [registrarLog_esd] at hesd
        exact absurd hesd (by simp [hXesd])
      · intro _ hover
        have hover2 : recupTras (pasoBotonEsd {s with ultimo_tiempo_actualizacion := e.tiempo}
              e.boton_esd) = true
            ∨ precalTras (pasoBotonEsd {s with ultimo_tiempo_actualizacion := e.tiempo}
              e.boton_esd) = true := by
          rcases hover with h | h
          · left
            rwa [registrarLog_recuperacion, pasoNormal_sin_disparo_recuperacion htrip] at h
          · right
            rwa [registrarLog_precalentamiento,
              pasoNormal_sin_disparo_precalentamiento htrip] at h
        have hflujo : flujoNormal (pasoBotonEsd {s with ultimo_tiempo_actualizacion := e.tiempo}
            e.boton_esd) e ((e.tiempo - s.ultimo_tiempo_actualizacion) / 2)
            = Flujo.none := by
          unfold flujoNormal
          rw [if_neg]
          rintro ⟨h1, h2⟩
          rcases hover2 with h | h
          · rw [h] at h1; simp at h1
          · rw [h] at h2; simp at h2
        refine ⟨?_, ?_, ?_⟩
        · rw [registrarLog_estado_flujo, pasoNormal_sin_disparo_estado_flujo htrip, hflujo]
        · rw [registrarLog_led_flujo, pasoNormal_sin_disparo_led htrip, hflujo]
          rfl
        · rw [registro_f, registrarLog_estado_flujo,
            pasoNormal_sin_disparo_estado_flujo htrip, hflujo]
  · rw [if_neg hb]
    constructor
    · intro _
      refine ⟨by simp, by simp, by simp⟩
    · intro hesd _
      rw [registrarLog_esd, pasoEsd_esd_activo] at hesd
      exact absurd hesd hb

/-- Witness for the amended C3 at the counterexample's concrete trip tick. -/
theorem witness_C3 :
    (tick estadoAntesC3 entradaC3c).led_flujo = false ∧
    (tick estadoAntesC3 entradaC3c).estado_flujo = estadoAntesC3.estado_flujo ∧
    (registro (tick estadoAntesC3 entradaC3c)).f = estadoAntesC3.estado_flujo :=
  (claim_C3 estadoAntesC3 entradaC3c
    (by norm_num [duracion_standby, entradaC3c])).1
    (by norm_num [estadoAntesC3, entradaC3a, entradaC3b, entradaC3c, tick,
      cuerpoTick, registrarLog, trasNormal, pasoBotonEsd, pasoNormal, pasoEsd,
      flancoBajada, recupTras, precalTras, evalRecuperacion, evalPrecalentamiento,
      deltaPosicion, ajusteValvula, ajusteSupercalentador, forzarValvula,
      forzarSupercalentador, valvulaNormal, supercalNormal, fisicaPresion,
      fisicaTemperatura, presionNormal, temperaturaNormal, cambioBotonEncoder,
      toggleModo, clasificarFlujo, ledDeFlujo, flujoNormal, valvulaEsd,
      alivioEsd, supercalentadorEsd, purgaEsd, presionTrasLeyEsd,
      temperaturaTrasLeyEsd, fisicaPresionEsd, fisicaTemperaturaEsd, clamp,
      estadoInicial, duracion_standby, PRESION_INICIAL, TEMPERATURA_INICIAL,
      PRESION_EMERGENCIA_ALTA, TEMPERATURA_EMERGENCIA_ALTA, PRESION_RECUPERACION,
      TEMPERATURA_PRECALENTAMIENTO, TOLERANCIA_PRESION_ESD,
      TOLERANCIA_TEMPERATURA_ESD, VALVULA_MODULANTE_MIN, VALVULA_MODULANTE_MAX,
      SUPERCALENTADOR_MIN, SUPERCALENTADOR_MAX, SENSIBILIDAD_ENCODER_PRESION,
      SENSIBILIDAD_ENCODER_TEMPERATURA, TIEMPO_DEBOUNCE_MS,
      decide_eq_true_eq, decide_eq_false_iff_not, abs_le, lt_abs])

/-- First tick of the C4 counterexample: manual ESD trip at nominal values
(the tick also converges, so the state is ReadyForReset). -/
def entradaC4a : Entrada := ⟨10, false, true, 0⟩

/-- Second tick of the C4 counterexample: the encoder was rotated by +7
detents while ESD is active; the rotation is not consumed. -/
def entradaC4b : Entrada := ⟨20, true, true, 7⟩

/-- Third tick of the C4 counterexample: ESD reset edge; the first Running
tick applies the whole deferred delta to the valve. -/
def entradaC4c : Entrada := ⟨30, false, true, 7⟩

/-- State after the trip tick of the C4 run. -/
def estadoC4a : Estado := tick estadoInicial entradaC4a

/-- State after the ESD tick during which the encoder was rotated. -/
def estadoC4b : Estado := tick estadoC4a entradaC4b

/-- cex_C4: the claim "rotary deltas produced while the sequencer is not
Running never affect the channels, not even after reset" is false.  The
encoder moves from 0 to 7 during an ESD tick (valve pinned at 50); after the
reset edge the next Running tick applies the stored delta and the valve jumps
to 64. -/
theorem cex_C4 :
    estadoC4a.esd_activo = true ∧ estadoC4b.esd_activo = true ∧
    estadoC4a.porcentaje_valvula_modulante = 50 ∧
    estadoC4b.porcentaje_valvula_modulante = 50 ∧
    estadoC4b.ultima_posicion_encoder = 0 ∧
    (tick estadoC4b entradaC4c).esd_activo = false ∧
    (tick estadoC4b entradaC4c).porcentaje_valvula_modulante = 64 := by
  norm_num [estadoC4a, estadoC4b, entradaC4a, entradaC4b, entradaC4c, tick,
    cuerpoTick, registrarLog, trasNormal, pasoBotonEsd, pasoNormal, pasoEsd,
    flancoBajada, recupTras, precalTras, evalRecuperacion, evalPrecalentamiento,
    deltaPosicion, ajusteValvula, ajusteSupercalentador, forzarValvula,
    forzarSupercalentador, valvulaNormal, supercalNormal, fisicaPresion,
    fisicaTemperatura, presionNormal, temperaturaNormal, cambioBotonEncoder,
    toggleModo, clasificarFlujo, ledDeFlujo, flujoNormal, valvulaEsd, alivioEsd,
    supercalentadorEsd, purgaEsd, presionTrasLeyEsd, temperaturaTrasLeyEsd,
    fisicaPresionEsd, fisicaTemperaturaEsd, clamp, estadoInicial,
    duracion_standby, PRESION_INICIAL, TEMPERATURA_INICIAL,
    PRESION_EMERGENCIA_ALTA, TEMPERATURA_EMERGENCIA_ALTA, PRESION_RECUPERACION,
    TEMPERATURA_PRECALENTAMIENTO, TOLERANCIA_PRESION_ESD,
    TOLERANCIA_TEMPERATURA_ESD, VALVULA_MODULANTE_MIN, VALVULA_MODULANTE_MAX,
    SUPERCALENTADOR_MIN, SUPERCALENTADOR_MAX, SENSIBILIDAD_ENCODER_PRESION,
    SENSIBILIDAD_ENCODER_TEMPERATURA, TIEMPO_DEBOUNCE_MS,
    decide_eq_true_eq, decide_eq_false_iff_not, abs_le, lt_abs]

/-- C4 (amended): while ESD is engaged (and the tick is not the reset tick),
the tick result is entirely independent of the encoder position and the
stored `ultima_posicion_encoder` is not updated; consequently rotation during
the episode is not consumed then, but is applied as one accumulated delta on
the first Running tick after the reset (shown concretely by cex_C4). -/
theorem claim_C4 (s : Estado) (e : Entrada) (n : ℤ) (hesd : s.esd_activo = true)
    (hnr : ¬ (flancoBajada s.ultimo_estado_boton_esd e.boton_esd = true ∧
      s.esd_listo_para_reinicio = true)) :
    tick s {e with posicion_encoder := n} = tick s e ∧
    (tick s e).ultima_posicion_encoder = s.ultima_posicion_encoder := by
  by_cases hst : e.tiempo < duracion_standby
  · constructor
    · rw [tick_standby hst,
        tick_standby (show ({e with posicion_encoder := n} : Entrada).tiempo
          < duracion_standby from hst)]
    · rw [tick_standby hst]
  · have hst2 : ¬ ({e with posicion_encoder := n} : Entrada).tiempo
        < duracion_standby := hst
    have hs1 : pasoBotonEsd {s with ultimo_tiempo_actualizacion := e.tiempo} e.boton_esd
        = {{s with ultimo_tiempo_actualizacion := e.tiempo} with
            ultimo_estado_boton_esd := e.boton_esd} := by
      by_cases hf : flancoBajada ({s with ultimo_tiempo_actualizacion := e.tiempo} :
          Estado).ultimo_estado_boton_esd e.boton_esd = true
      · have hl : ({s with ultimo_tiempo_actualizacion := e.tiempo} :
            Estado).esd_listo_para_reinicio = false := by
          cases h : s.esd_listo_para_reinicio with
          | true => exact absurd ⟨by simpa using hf, h⟩ hnr
          | false => simp [h]
        exact pasoBotonEsd_ignora hf (by simpa using hesd) hl
      · have hff : flancoBajada ({s with ultimo_tiempo_actualizacion := e.tiempo} :
            Estado).ultimo_estado_boton_esd e.boton_esd = false := by
          revert hf
          cases h : flancoBajada ({s with ultimo_tiempo_actualizacion := e.tiempo} :
            Estado).ultimo_estado_boton_esd e.boton_esd <;> simp
        exact pasoBotonEsd_sin_flanco hff
    rw [tick_cuerpo hst, tick_cuerpo hst2]
    unfold cuerpoTick
    dsimp only
    rw [hs1]
    rw [if_neg (by simp [hesd]), if_neg (by simp [hesd])]
    exact ⟨rfl, by simp⟩

/-- Witness for the amended C4 at the concrete rotated ESD tick. -/
theorem witness_C4 :
    tick estadoC4a {entradaC4b with posicion_encoder := 3} = tick estadoC4a entradaC4b ∧
    (tick estadoC4a entradaC4b).ultima_posicion_encoder
      = estadoC4a.ultima_posicion_encoder :=
  claim_C4 estadoC4a entradaC4b 3
    (by norm_num [estadoC4a, entradaC4a, tick, cuerpoTick, registrarLog,
      trasNormal, pasoBotonEsd, pasoNormal, pasoEsd, flancoBajada, recupTras,
      precalTras, evalRecuperacion, evalPrecalentamiento, deltaPosicion,
      ajusteValvula, ajusteSupercalentador, forzarValvula, forzarSupercalentador,
      valvulaNormal, supercalNormal, fisicaPresion, fisicaTemperatura,
      presionNormal, temperaturaNormal, cambioBotonEncoder, toggleModo,
      clasificarFlujo, ledDeFlujo, flujoNormal, valvulaEsd, alivioEsd,
      supercalentadorEsd, purgaEsd, presionTrasLeyEsd, temperaturaTrasLeyEsd,
      fisicaPresionEsd, fisicaTemperaturaEsd, clamp, estadoInicial,
      duracion_standby, PRESION_INICIAL, TEMPERATURA_INICIAL,
      PRESION_EMERGENCIA_ALTA, TEMPERATURA_EMERGENCIA_ALTA, PRESION_RECUPERACION,
      TEMPERATURA_PRECALENTAMIENTO, TOLERANCIA_PRESION_ESD,
      TOLERANCIA_TEMPERATURA_ESD, VALVULA_MODULANTE_MIN, VALVULA_MODULANTE_MAX,
      SUPERCALENTADOR_MIN, SUPERCALENTADOR_MAX, SENSIBILIDAD_ENCODER_PRESION,
      SENSIBILIDAD_ENCODER_TEMPERATURA, TIEMPO_DEBOUNCE_MS,
      decide_eq_true_eq, decide_eq_false_iff_not, abs_le, lt_abs])
    (by norm_num [estadoC4a, entradaC4a, entradaC4b, tick, cuerpoTick,
      registrarLog, trasNormal, pasoBotonEsd, pasoNormal, pasoEsd, flancoBajada,
      recupTras, precalTras, evalRecuperacion, evalPrecalentamiento,
      deltaPosicion, ajusteValvula, ajusteSupercalentador, forzarValvula,
      forzarSupercalentador, valvulaNormal, supercalNormal, fisicaPresion,
      fisicaTemperatura, presionNormal, temperaturaNormal, cambioBotonEncoder,
      toggleModo, clasificarFlujo, ledDeFlujo, flujoNormal, valvulaEsd,
      alivioEsd, supercalentadorEsd, purgaEsd, presionTrasLeyEsd,
      temperaturaTrasLeyEsd, fisicaPresionEsd, fisicaTemperaturaEsd, clamp,
      estadoInicial, duracion_standby, PRESION_INICIAL, TEMPERATURA_INICIAL,
      PRESION_EMERGENCIA_ALTA, TEMPERATURA_EMERGENCIA_ALTA, PRESION_RECUPERACION,
      TEMPERATURA_PRECALENTAMIENTO, TOLERANCIA_PRESION_ESD,
      TOLERANCIA_TEMPERATURA_ESD, VALVULA_MODULANTE_MIN, VALVULA_MODULANTE_MAX,
      SUPERCALENTADOR_MIN, SUPERCALENTADOR_MAX, SENSIBILIDAD_ENCODER_PRESION,
      SENSIBILIDAD_ENCODER_TEMPERATURA, TIEMPO_DEBOUNCE_MS,
      decide_eq_true_eq, decide_eq_false_iff_not, abs_le, lt_abs])

/-- C5 counterexample drive, tick 1: press the encoder button. -/
def entradaC5a : Entrada := ⟨10, true, false, 0⟩

/-- Tick 2: button held past the debounce window — mode becomes Temperature. -/
def entradaC5b : Entrada := ⟨51/5, true, false, 0⟩

/-- Tick 3: button released. -/
def entradaC5c : Entrada := ⟨52/5, true, true, 0⟩

/-- Tick 4: rotate −15 in Temperature mode over a long interval: the
superheater drops to 35 % and the temperature falls to 105 °C. -/
def entradaC5d : Entrada := ⟨352/5, true, true, -15⟩

/-- Tick 5: preheat latches (105 ≤ 110); button pressed again. -/
def entradaC5e : Entrada := ⟨353/5, true, false, -15⟩

/-- Tick 6: held past the debounce window — mode returns to Pressure. -/
def entradaC5f : Entrada := ⟨354/5, true, false, -15⟩

/-- Reachable Running state with only the preheat override active and the
control mode back at Pressure. -/
def estadoAntesC5 : Estado :=
  tick (tick (tick (tick (tick (tick estadoInicial entradaC5a) entradaC5b)
    entradaC5c) entradaC5d) entradaC5e) entradaC5f

/-- The manual-adjustment tick of the C5 counterexample: +5 detents in
Pressure mode while only preheat is active. -/
def entradaC5g : Entrada := ⟨71, true, true, -10⟩

/-- cex_C5: the claim "while only the preheat override is active, manual
valve adjustment in Pressure mode is still applied" is false.  In a reachable
state with preheat active, recovery inactive and mode Pressure, a +5-detent
rotation leaves the valve at 50 % (the code suppresses manual adjustment of
both channels whenever either override is active). -/
theorem cex_C5 :
    estadoAntesC5.precalentamiento_activo = true ∧
    estadoAntesC5.recuperacion_presion_activa = false ∧
    estadoAntesC5.modo_actual = 0 ∧
    estadoAntesC5.porcentaje_valvula_modulante = 50 ∧
    entradaC5g.posicion_encoder - estadoAntesC5.ultima_posicion_encoder = 5 ∧
    (tick estadoAntesC5 entradaC5g).precalentamiento_activo = true ∧
    (tick estadoAntesC5 entradaC5g).recuperacion_presion_activa = false ∧
    (tick estadoAntesC5 entradaC5g).porcentaje_valvula_modulante = 50 := by
  norm_num [estadoAntesC5, entradaC5a, entradaC5b, entradaC5c, entradaC5d,
    entradaC5e, entradaC5f, entradaC5g, tick, cuerpoTick, registrarLog,
    trasNormal, pasoBotonEsd, pasoNormal, pasoEsd, flancoBajada, recupTras,
    precalTras, evalRecuperacion, evalPrecalentamiento, deltaPosicion,
    ajusteValvula, ajusteSupercalentador, forzarValvula, forzarSupercalentador,
    valvulaNormal, supercalNormal, fisicaPresion, fisicaTemperatura,
    presionNormal, temperaturaNormal, cambioBotonEncoder, toggleModo,
    clasificarFlujo, ledDeFlujo, flujoNormal, valvulaEsd, alivioEsd,
    supercalentadorEsd, purgaEsd, presionTrasLeyEsd, temperaturaTrasLeyEsd,
    fisicaPresionEsd, fisicaTemperaturaEsd, clamp, estadoInicial,
    duracion_standby, PRESION_INICIAL, TEMPERATURA_INICIAL,
    PRESION_EMERGENCIA_ALTA, TEMPERATURA_EMERGENCIA_ALTA, PRESION_RECUPERACION,
    TEMPERATURA_PRECALENTAMIENTO, TOLERANCIA_PRESION_ESD,
    TOLERANCIA_TEMPERATURA_ESD, VALVULA_MODULANTE_MIN, VALVULA_MODULANTE_MAX,
    SUPERCALENTADOR_MIN, SUPERCALENTADOR_MAX, SENSIBILIDAD_ENCODER_PRESION,
    SENSIBILIDAD_ENCODER_TEMPERATURA, TIEMPO_DEBOUNCE_MS,
    decide_eq_true_eq, decide_eq_false_iff_not, abs_le, lt_abs]

/-- C5 (amended): manual-adjustment suppression is global, not per channel.
On a Running tick with no trip and no ESD edge, if either hysteresis latch
evaluates active this tick, manual adjustment is suppressed on both channels:
the valve ends at its prior value (or forced 0 when recovery is active) and
the superheater at its prior value (or forced 100 when preheat is active),
regardless of the encoder delta. -/
theorem claim_C5 (s : Estado) (e : Entrada) (ht : duracion_standby ≤ e.tiempo)
    (hR : Running s)
    (hf : flancoBajada s.ultimo_estado_boton_esd e.boton_esd = false)
    (hp : s.presion_simulada < PRESION_EMERGENCIA_ALTA)
    (htmp : s.temperatura_simulada < TEMPERATURA_EMERGENCIA_ALTA)
    (hov : evalRecuperacion s.recuperacion_presion_activa s.presion_simulada = true
      ∨ evalPrecalentamiento s.precalentamiento_activo s.temperatura_simulada = true) :
    (tick s e).porcentaje_valvula_modulante
      = (if evalRecuperacion s.recuperacion_presion_activa s.presion_simulada = true
          then 0 else s.porcentaje_valvula_modulante) ∧
    (tick s e).comando_supercalentador
      = (if evalPrecalentamiento s.precalentamiento_activo s.temperatura_simulada = true
          then 100 else s.comando_supercalentador) := by
  have hst : ¬ e.tiempo < duracion_standby := not_lt.mpr ht
  rw [tick_cuerpo hst]
  unfold cuerpoTick
  rw [pasoBotonEsd_sin_flanco (by simpa using hf)]
  set A : Estado := ({s with ultimo_tiempo_actualizacion := e.tiempo, ultimo_estado_boton_esd := e.boton_esd} : Estado) with hAdef
  have hnotrip : ¬ (A.presion_simulada ≥ PRESION_EMERGENCIA_ALTA
      ∨ A.temperatura_simulada ≥ TEMPERATURA_EMERGENCIA_ALTA) := by
    rintro (hc | hc)
    · have hcs : s.presion_simulada ≥ PRESION_EMERGENCIA_ALTA := hc
      exact absurd hcs (not_le.mpr hp)
    · have hcs : s.temperatura_simulada ≥ TEMPERATURA_EMERGENCIA_ALTA := hc
      exact absurd hcs (not_le.mpr htmp)
  rw [if_pos (by simp [hAdef, hR])]
  unfold trasNormal
  have hXesd : (pasoNormal A e ((e.tiempo - s.ultimo_tiempo_actualizacion) / 2)).esd_activo
      = false := by
    rw [pasoNormal_sin_disparo_esd hnotrip]
    simp [hAdef, hR]
  rw [if_neg (by simp [hXesd])]
  have hr : recupTras A
      = evalRecuperacion s.recuperacion_presion_activa s.presion_simulada := rfl
  have hpr : precalTras A
      = evalPrecalentamiento s.precalentamiento_activo s.temperatura_simulada := rfl
  constructor
  · rw [registrarLog_valvula, pasoNormal_sin_disparo_valvula hnotrip]
    unfold valvulaNormal forzarValvula ajusteValvula
    rw [hr, hpr]
    by_cases hrec : evalRecuperacion s.recuperacion_presion_activa s.presion_simulada = true
    · rw [if_pos hrec, if_pos hrec]
    · rw [if_neg hrec, if_neg hrec]
      have hprec : evalPrecalentamiento s.precalentamiento_activo s.temperatura_simulada
          = true := hov.resolve_left hrec
      rw [if_neg (by rintro ⟨-, hc, -⟩; rw [hprec] at hc; simp at hc)]
  · rw [registrarLog_supercalentador, pasoNormal_sin_disparo_supercalentador hnotrip]
    unfold supercalNormal forzarSupercalentador ajusteSupercalentador
    rw [hr, hpr]
    by_cases hprec : evalPrecalentamiento s.precalentamiento_activo s.temperatura_simulada
        = true
    · rw [if_pos hprec, if_pos hprec]
    · rw [if_neg hprec, if_neg hprec]
      have hrec : evalRecuperacion s.recuperacion_presion_activa s.presion_simulada
          = true := hov.resolve_right hprec
      rw [if_neg (by rintro ⟨hc, -, -⟩; rw [hrec] at hc; simp at hc)]

/-- Concrete state with only preheat active, used to witness C5. -/
def estadoW5 : Estado :=
  {estadoInicial with precalentamiento_activo := true, temperatura_simulada := 120}

/-- Entrada for the C5 witness: +5 detents in Pressure mode. -/
def entradaW5 : Entrada := ⟨10, true, true, 5⟩

/-- Witness for the amended C5. -/
theorem witness_C5 :
    (tick estadoW5 entradaW5).porcentaje_valvula_modulante
      = (if evalRecuperacion estadoW5.recuperacion_presion_activa
            estadoW5.presion_simulada = true
          then 0 else estadoW5.porcentaje_valvula_modulante) ∧
    (tick estadoW5 entradaW5).comando_supercalentador
      = (if evalPrecalentamiento estadoW5.precalentamiento_activo
            estadoW5.temperatura_simulada = true
          then 100 else estadoW5.comando_supercalentador) :=
  claim_C5 estadoW5 entradaW5
    (by norm_num [duracion_standby, entradaW5])
    (by decide)
    (by decide)
    (by norm_num [estadoW5, estadoInicial, PRESION_INICIAL, PRESION_EMERGENCIA_ALTA])
    (by norm_num [estadoW5, estadoInicial, TEMPERATURA_EMERGENCIA_ALTA])
    (Or.inr (by norm_num [estadoW5, estadoInicial, evalPrecalentamiento,
      TEMPERATURA_PRECALENTAMIENTO]))

/-- C6 counterexample, tick 1: the encoder button goes down. -/
def entradaC6a : Entrada := ⟨10, true, false, 0⟩

/-- Tick 2: still pressed, 200 ms later — first toggle. -/
def entradaC6b : Entrada := ⟨51/5, true, false, 0⟩

/-- Tick 3: still pressed, 200 ms later again — second toggle, no release in
between. -/
def entradaC6c : Entrada := ⟨52/5, true, false, 0⟩

/-- State after the press is first observed. -/
def estadoC6a : Estado := tick estadoInicial entradaC6a

/-- State after the first toggle. -/
def estadoC6b : Estado := tick estadoC6a entradaC6b

/-- State after the second toggle of the same uninterrupted press. -/
def estadoC6c : Estado := tick estadoC6b entradaC6c

/-- cex_C6: the claim "at most one toggle per press; the debounce re-arms
only on release" is false.  With the button held continuously pressed over
three ticks, the mode toggles twice (0 → 1 → 0): the code resets its timer on
each toggle, not on release, so a held button auto-repeats. -/
theorem cex_C6 :
    entradaC6a.boton_encoder = false ∧ entradaC6b.boton_encoder = false ∧
    entradaC6c.boton_encoder = false ∧
    estadoC6a.modo_actual = 0 ∧ estadoC6b.modo_actual = 1 ∧
    estadoC6c.modo_actual = 0 := by
  norm_num [estadoC6a, estadoC6b, estadoC6c, entradaC6a, entradaC6b, entradaC6c,
    tick, cuerpoTick, registrarLog, trasNormal, pasoBotonEsd, pasoNormal,
    pasoEsd, flancoBajada, recupTras, precalTras, evalRecuperacion,
    evalPrecalentamiento, deltaPosicion, ajusteValvula, ajusteSupercalentador,
    forzarValvula, forzarSupercalentador, valvulaNormal, supercalNormal,
    fisicaPresion, fisicaTemperatura, presionNormal, temperaturaNormal,
    cambioBotonEncoder, toggleModo, clasificarFlujo, ledDeFlujo, flujoNormal,
    valvulaEsd, alivioEsd, supercalentadorEsd, purgaEsd, presionTrasLeyEsd,
    temperaturaTrasLeyEsd, fisicaPresionEsd, fisicaTemperaturaEsd, clamp,
    estadoInicial, duracion_standby, PRESION_INICIAL, TEMPERATURA_INICIAL,
    PRESION_EMERGENCIA_ALTA, TEMPERATURA_EMERGENCIA_ALTA, PRESION_RECUPERACION,
    TEMPERATURA_PRECALENTAMIENTO, TOLERANCIA_PRESION_ESD,
    TOLERANCIA_TEMPERATURA_ESD, VALVULA_MODULANTE_MIN, VALVULA_MODULANTE_MAX,
    SUPERCALENTADOR_MIN, SUPERCALENTADOR_MAX, SENSIBILIDAD_ENCODER_PRESION,
    SENSIBILIDAD_ENCODER_TEMPERATURA, TIEMPO_DEBOUNCE_MS,
    decide_eq_true_eq, decide_eq_false_iff_not, abs_le, lt_abs]

/-- C6 (amended): on a Running tick with no trip and no ESD edge, the debounce
behaves as follows.  A button-state change only restamps the timer; a button
observed unchanged and pressed toggles the mode exactly when strictly more
than 120 ms elapsed since the stored timestamp, and then restamps the timer
(so a continuously held button toggles again every further 120 ms — it does
not re-arm on release); in every other case mode and timer are unchanged. -/
theorem claim_C6 (s : Estado) (e : Entrada) (ht : duracion_standby ≤ e.tiempo)
    (hR : Running s)
    (hf : flancoBajada s.ultimo_estado_boton_esd e.boton_esd = false)
    (hp : s.presion_simulada < PRESION_EMERGENCIA_ALTA)
    (htmp : s.temperatura_simulada < TEMPERATURA_EMERGENCIA_ALTA) :
    (e.boton_encoder ≠ s.ultimo_estado_boton_encoder →
      (tick s e).modo_actual = s.modo_actual ∧
      (tick s e).ultimo_tiempo_boton_encoder = e.tiempo) ∧
    (e.boton_encoder = s.ultimo_estado_boton_encoder → e.boton_encoder = false →
      (e.tiempo - s.ultimo_tiempo_boton_encoder) * 1000 > TIEMPO_DEBOUNCE_MS →
      (tick s e).modo_actual = 1 - s.modo_actual ∧
      (tick s e).ultimo_tiempo_boton_encoder = e.tiempo) ∧
    (e.boton_encoder = s.ultimo_estado_boton_encoder →
      ¬ (e.boton_encoder = false ∧
        (e.tiempo - s.ultimo_tiempo_boton_encoder) * 1000 > TIEMPO_DEBOUNCE_MS) →
      (tick s e).modo_actual = s.modo_actual ∧
      (tick s e).ultimo_tiempo_boton_encoder = s.ultimo_tiempo_boton_encoder) := by
  have hst : ¬ e.tiempo < duracion_standby := not_lt.mpr ht
  rw [tick_cuerpo hst]
  unfold cuerpoTick
  rw [pasoBotonEsd_sin_flanco (by simpa using hf)]
  set A : Estado := ({s with ultimo_tiempo_actualizacion := e.tiempo, ultimo_estado_boton_esd := e.boton_esd} : Estado) with hAdef
  have hnotrip : ¬ (A.presion_simulada ≥ PRESION_EMERGENCIA_ALTA
      ∨ A.temperatura_simulada ≥ TEMPERATURA_EMERGENCIA_ALTA) := by
    rintro (hc | hc)
    · have hcs : s.presion_simulada ≥ PRESION_EMERGENCIA_ALTA := hc
      exact absurd hcs (not_le.mpr hp)
    · have hcs : s.temperatura_simulada ≥ TEMPERATURA_EMERGENCIA_ALTA := hc
      exact absurd hcs (not_le.mpr htmp)
  rw [if_pos (by simp [hAdef, hR])]
  unfold trasNormal
  have hXesd : (pasoNormal A e ((e.tiempo - s.ultimo_tiempo_actualizacion) / 2)).esd_activo
      = false := by
    rw [pasoNormal_sin_disparo_esd hnotrip]
    simp [hAdef, hR]
  rw [if_neg (by simp [hXesd])]
  have hmodo :=
    @pasoNormal_sin_disparo_modo A e ((e.tiempo - s.ultimo_tiempo_actualizacion) / 2) hnotrip
  have htb :=
    @pasoNormal_sin_disparo_tiempo_boton A e
      ((e.tiempo - s.ultimo_tiempo_actualizacion) / 2) hnotrip
  refine ⟨?_, ?_, ?_⟩
  · intro hne
    have hc : cambioBotonEncoder A e = true := by
      unfold cambioBotonEncoder
      show (e.boton_encoder != s.ultimo_estado_boton_encoder) = true
      simp [hne]
    have htg : toggleModo A e = false := by
      unfold toggleModo
      rw [hc]
      simp
    constructor
    · rw [registrarLog_modo, hmodo, htg]
      simp [hAdef]
    · rw [registrarLog_tiempo_boton, htb, hc]
      simp
  · intro heq hpress htime
    have hc : cambioBotonEncoder A e = false := by
      unfold cambioBotonEncoder
      show (e.boton_encoder != s.ultimo_estado_boton_encoder) = false
      simp [heq]
    have htg : toggleModo A e = true := by
      unfold toggleModo
      rw [hc]
      show (!false && (e.boton_encoder == false)
        && decide ((e.tiempo - s.ultimo_tiempo_boton_encoder) * 1000
            > TIEMPO_DEBOUNCE_MS)) = true
      simp [hpress, htime]
    constructor
    · rw [registrarLog_modo, hmodo, htg]
      simp [hAdef]
    · rw [registrarLog_tiempo_boton, htb, htg]
      simp
  · intro heq hnot
    have hc : cambioBotonEncoder A e = false := by
      unfold cambioBotonEncoder
      show (e.boton_encoder != s.ultimo_estado_boton_encoder) = false
      simp [heq]
    have htg : toggleModo A e = false := by
      unfold toggleModo
      rw [hc]
      show (!false && (e.boton_encoder == false)
        && decide ((e.tiempo - s.ultimo_tiempo_boton_encoder) * 1000
            > TIEMPO_DEBOUNCE_MS)) = false
      rcases Decidable.em (e.boton_encoder = false) with hbe | hbe
      · have hnt : ¬ ((e.tiempo - s.ultimo_tiempo_boton_encoder) * 1000
            > TIEMPO_DEBOUNCE_MS) := fun htt => hnot ⟨hbe, htt⟩
        simp [hbe, hnt]
      · have hbt : e.boton_encoder = true := by
          revert hbe; cases e.boton_encoder <;> simp
        simp [hbt]
    constructor
    · rw [registrarLog_modo, hmodo, htg]
      simp [hAdef]
    · rw [registrarLog_tiempo_boton, htb, hc, htg]
      simp [hAdef]

/-- Concrete held-pressed state used to witness C6. -/
def estadoW6 : Estado :=
  {estadoInicial with ultimo_estado_boton_encoder := false,
                      ultimo_tiempo_boton_encoder := 5}

/-- Entrada for the C6 witness: still pressed, 5 s after the stamp. -/
def entradaW6 : Entrada := ⟨10, true, false, 0⟩

/-- Witness for the amended C6: a held press past the window toggles. -/
theorem witness_C6 :
    (tick estadoW6 entradaW6).modo_actual = 1 - estadoW6.modo_actual ∧
    (tick estadoW6 entradaW6).ultimo_tiempo_boton_encoder = entradaW6.tiempo :=
  (claim_C6 estadoW6 entradaW6
    (by norm_num [duracion_standby, entradaW6])
    (by decide)
    (by decide)
    (by norm_num [estadoW6, estadoInicial, PRESION_INICIAL, PRESION_EMERGENCIA_ALTA])
    (by norm_num [estadoW6, estadoInicial, TEMPERATURA_INICIAL,
      TEMPERATURA_EMERGENCIA_ALTA])).2.1
    (by decide)
    (by decide)
    (by norm_num [estadoW6, estadoInicial, entradaW6, TIEMPO_DEBOUNCE_MS])

end VaporSur
